import Mathlib

/-!
Verification of the neotron-loader ELF32 decoding engine.

The Rust sources are shallowly embedded: machine integers (u8, u16, u32) are
natural numbers, with an explicit reduction modulo 2^32 wherever the original
u32 arithmetic can wrap around; fallible operations return `Except`.  The
`Source` trait is a structure holding the `read` capability together with its
documented contract (a successful read fills the buffer completely, and every
byte delivered is an octet).
-/

set_option maxRecDepth 8192

namespace NeotronLoader

/-- Equality of `Except` values is decidable when it is on both components. -/
instance {F A : Type} [DecidableEq F] [DecidableEq A] : DecidableEq (Except F A) :=
  fun x y =>
    match x, y with
    | Except.ok a, Except.ok b =>
      if h : a = b then isTrue (by rw [h])
      else isFalse (by intro hc; injection hc; contradiction)
    | Except.error e, Except.error f =>
      if h : e = f then isTrue (by rw [h])
      else isFalse (by intro hc; injection hc; contradiction)
    | Except.ok _, Except.error _ => isFalse (by intro hc; cases hc)
    | Except.error _, Except.ok _ => isFalse (by intro hc; cases hc)

/-- The modulus of u32 arithmetic. -/
def u32Mod : Nat := 4294967296

/-- The modulus of u16 arithmetic. -/
def u16Mod : Nat := 65536

/-- Assemble a byte list as a big-endian number, as `u32::from_be_bytes` does. -/
def fromBeBytes (bs : List Nat) : Nat :=
  bs.foldl (fun acc b => acc * 256 + b) 0

/-- Assemble a byte list as a little-endian number, as `u32::from_le_bytes`
and `u16::from_le_bytes` do. -/
def fromLeBytes (bs : List Nat) : Nat :=
  bs.foldr (fun b acc => acc * 256 + b) 0

/-- Model of the `Source` trait (`traits.rs`): something we can read data
from.  `read off len` models `read(&self, offset, buffer)` for a buffer of
length `len`, returning the bytes that fill the buffer.  The two proof fields
are the documented contract of the trait: on success the buffer is filled
completely (the result has exactly the requested length) and each byte is an
octet. -/
structure Source (E : Type) where
  read : Nat → Nat → Except E (List Nat)
  read_len : ∀ off len bs, read off len = Except.ok bs → bs.length = len
  read_bytes : ∀ off len bs, read off len = Except.ok bs → ∀ b, b ∈ bs → b < 256

/-- Model of `Source::read_u32_be`. -/
def Source.read_u32_be {E : Type} (ds : Source E) (off : Nat) : Except E Nat :=
  (ds.read off 4).map fromBeBytes

/-- Model of `Source::read_u32_le`. -/
def Source.read_u32_le {E : Type} (ds : Source E) (off : Nat) : Except E Nat :=
  (ds.read off 4).map fromLeBytes

/-- Model of `Source::read_u16_be`. -/
def Source.read_u16_be {E : Type} (ds : Source E) (off : Nat) : Except E Nat :=
  (ds.read off 2).map fromBeBytes

/-- Model of `Source::read_u16_le`. -/
def Source.read_u16_le {E : Type} (ds : Source E) (off : Nat) : Except E Nat :=
  (ds.read off 2).map fromLeBytes

/-- Model of `Source::read_u8`. -/
def Source.read_u8 {E : Type} (ds : Source E) (off : Nat) : Except E Nat :=
  (ds.read off 1).map (fun bs => bs.headD 0)

/-- The ways this API can fail (`Error` in `lib.rs`). -/
inductive Error (E : Type) where
  /-- The ELF file did not look right. -/
  | NotAnElfFile
  /-- It was an ELF file, but not one Neotron can handle. -/
  | WrongElfFile
  /-- There was a problem with the data source. -/
  | Source (e : E)
  /-- Could not fit the string into the given buffer. -/
  | NotEnoughSpace
  /-- Section name was not UTF-8. -/
  | InvalidString
deriving Repr, DecidableEq

/-- The `?` operator applied to a `DS::Error` result inside a function
returning `Error<DS::Error>`: a failure is wrapped by the `From` impl into
`Error::Source`. -/
def qm {E A B : Type} (x : Except E A) (k : A → Except (Error E) B) :
    Except (Error E) B :=
  match x with
  | Except.error e => Except.error (Error.Source e)
  | Except.ok a => k a

/-- The `?` operator applied to a result that already carries `Error<E>`. -/
def qe {F A B : Type} (x : Except F A) (k : A → Except F B) : Except F B :=
  match x with
  | Except.error e => Except.error e
  | Except.ok a => k a

@[simp] theorem qm_ok {E A B : Type} (a : A) (k : A → Except (Error E) B) :
    qm (Except.ok a) k = k a := rfl

@[simp] theorem qm_error {E A B : Type} (e : E) (k : A → Except (Error E) B) :
    qm (Except.error e) k = Except.error (Error.Source e) := rfl

@[simp] theorem qe_ok {F A B : Type} (a : A) (k : A → Except F B) :
    qe (Except.ok a) k = k a := rfl

@[simp] theorem qe_error {F A B : Type} (e : F) (k : A → Except F B) :
    qe (Except.error e) k = Except.error e := rfl

/-- An object that can load and parse an ELF file (`Loader` in `lib.rs`).
The scalar fields are u32 (`e_entry`, `e_phoff`, `e_shoff`) and u16
(`e_phnum`, `e_shnum`, `e_shstrndx`) values. -/
structure Loader (E : Type) where
  data_source : Source E
  e_entry : Nat
  e_phoff : Nat
  e_shoff : Nat
  e_phnum : Nat
  e_shnum : Nat
  e_shstrndx : Nat

namespace segments

/-- Represents a program header (`segments::Header`). -/
structure Header where
  p_type : Nat
  p_offset : Nat
  p_vaddr : Nat
  p_paddr : Nat
  p_filesz : Nat
  p_memsz : Nat
  p_flags : Nat
  p_align : Nat
deriving Repr, DecidableEq

/-- Size of a program header entry. -/
def Header.SIZE_IN_BYTES : Nat := 0x20

/-- Model of `segments::Header::new`: decode program header `idx` (a u16)
from the program header table.  Offsets are computed in u32 arithmetic. -/
def Header.new {E : Type} (loader : Loader E) (idx : Nat) :
    Except (Error E) Header :=
  let ph_table_offset := (loader.e_phoff + Header.SIZE_IN_BYTES * idx) % u32Mod
  qm (loader.data_source.read_u32_le ph_table_offset) fun p_type =>
  qm (loader.data_source.read_u32_le ((ph_table_offset + 0x04) % u32Mod)) fun p_offset =>
  qm (loader.data_source.read_u32_le ((ph_table_offset + 0x08) % u32Mod)) fun p_vaddr =>
  qm (loader.data_source.read_u32_le ((ph_table_offset + 0x0C) % u32Mod)) fun p_paddr =>
  qm (loader.data_source.read_u32_le ((ph_table_offset + 0x10) % u32Mod)) fun p_filesz =>
  qm (loader.data_source.read_u32_le ((ph_table_offset + 0x14) % u32Mod)) fun p_memsz =>
  qm (loader.data_source.read_u32_le ((ph_table_offset + 0x18) % u32Mod)) fun p_flags =>
  qm (loader.data_source.read_u32_le ((ph_table_offset + 0x1C) % u32Mod)) fun p_align =>
  Except.ok { p_type, p_offset, p_vaddr, p_paddr, p_filesz, p_memsz, p_flags, p_align }

end segments

namespace sections

/-- Represents a section in the section table (`sections::Header`). -/
structure Header where
  sh_name_offset : Nat
  sh_type : Nat
  sh_flags : Nat
  sh_addr : Nat
  sh_offset : Nat
  sh_size : Nat
  sh_link : Nat
  sh_info : Nat
  sh_addralign : Nat
  sh_entsize : Nat
deriving Repr, DecidableEq

/-- Size of a section header entry. -/
def Header.SIZE_IN_BYTES : Nat := 0x28

/-- Model of `sections::Header::new`: decode section header `idx` (a u16)
from the section header table.  Offsets are computed in u32 arithmetic. -/
def Header.new {E : Type} (loader : Loader E) (idx : Nat) :
    Except (Error E) Header :=
  let section_table_offset := (loader.e_shoff + Header.SIZE_IN_BYTES * idx) % u32Mod
  qm (loader.data_source.read_u32_le section_table_offset) fun sh_name_offset =>
  qm (loader.data_source.read_u32_le ((section_table_offset + 0x04) % u32Mod)) fun sh_type =>
  qm (loader.data_source.read_u32_le ((section_table_offset + 0x08) % u32Mod)) fun sh_flags =>
  qm (loader.data_source.read_u32_le ((section_table_offset + 0x0C) % u32Mod)) fun sh_addr =>
  qm (loader.data_source.read_u32_le ((section_table_offset + 0x10) % u32Mod)) fun sh_offset =>
  qm (loader.data_source.read_u32_le ((section_table_offset + 0x14) % u32Mod)) fun sh_size =>
  qm (loader.data_source.read_u32_le ((section_table_offset + 0x18) % u32Mod)) fun sh_link =>
  qm (loader.data_source.read_u32_le ((section_table_offset + 0x1C) % u32Mod)) fun sh_info =>
  qm (loader.data_source.read_u32_le ((section_table_offset + 0x20) % u32Mod)) fun sh_addralign =>
  qm (loader.data_source.read_u32_le ((section_table_offset + 0x24) % u32Mod)) fun sh_entsize =>
  Except.ok { sh_name_offset, sh_type, sh_flags, sh_addr, sh_offset, sh_size,
              sh_link, sh_info, sh_addralign, sh_entsize }

end sections

namespace Loader

/-- Indicates ARM machine. -/
def EM_ARM : Nat := 0x0028

/-- For offset 0x10, indicates a binary. -/
def ET_EXEC : Nat := 0x0002

/-- Standard ELF magic header. -/
def ELF_MAGIC : Nat := 0x7F454C46

/-- 32-bit, little-endian, version 1, SysV. -/
def DESIRED_ELF_VERSION : Nat := 0x01010100

/-- Model of `Loader::new`: validate the fixed ELF file header and keep only
the six scalar fields. -/
def new {E : Type} (data_source : Source E) : Except (Error E) (Loader E) :=
  qm (data_source.read_u32_be 0x00) fun elf_header =>
  if elf_header ≠ ELF_MAGIC then Except.error Error.NotAnElfFile else
  qm (data_source.read_u32_be 0x04) fun class_endian_version_abi =>
  if class_endian_version_abi ≠ DESIRED_ELF_VERSION then Except.error Error.WrongElfFile else
  qm (data_source.read_u16_le 0x10) fun elf_type =>
  if elf_type ≠ ET_EXEC then Except.error Error.WrongElfFile else
  qm (data_source.read_u16_le 0x12) fun elf_machine =>
  if elf_machine ≠ EM_ARM then Except.error Error.WrongElfFile else
  qm (data_source.read_u32_le 0x14) fun elf_version =>
  if elf_version ≠ 1 then Except.error Error.WrongElfFile else
  qm (data_source.read_u32_le 0x18) fun e_entry =>
  qm (data_source.read_u32_le 0x1C) fun e_phoff =>
  qm (data_source.read_u32_le 0x20) fun e_shoff =>
  qm (data_source.read_u16_le 0x2A) fun e_phentsize =>
  if e_phentsize ≠ segments.Header.SIZE_IN_BYTES then Except.error Error.WrongElfFile else
  qm (data_source.read_u16_le 0x2C) fun e_phnum =>
  qm (data_source.read_u16_le 0x2E) fun e_shentsize =>
  if e_shentsize ≠ sections.Header.SIZE_IN_BYTES then Except.error Error.WrongElfFile else
  qm (data_source.read_u16_le 0x30) fun e_shnum =>
  qm (data_source.read_u16_le 0x32) fun e_shstrndx =>
  Except.ok { data_source, e_entry, e_phoff, e_shoff, e_phnum, e_shnum, e_shstrndx }

/-- Model of `Loader::segment_start_offset`: first byte past the program
header table, computed in u32 arithmetic. -/
def segment_start_offset {E : Type} (loader : Loader E) : Nat :=
  (loader.e_phoff + loader.e_phnum * segments.Header.SIZE_IN_BYTES) % u32Mod

end Loader

/-- Mirror of `CStr::from_bytes_until_nul` followed by `CStr::to_bytes`:
the bytes strictly before the first zero byte, or `none` when the list holds
no zero byte. -/
def bytesUntilNul : List Nat → Option (List Nat)
  | [] => none
  | b :: rest =>
    if b = 0 then some [] else Option.map (fun t => b :: t) (bytesUntilNul rest)

/-- Is `b` a UTF-8 continuation byte (0x80 to 0xBF)? -/
def isUtf8Cont (b : Nat) : Bool := 0x80 ≤ b && b ≤ 0xBF

/-- Standard UTF-8 validity of a byte list, as checked by
`core::str::from_utf8` (which `CStr::to_str` calls): the shortest-form
encodings of scalar values U+0000 to U+10FFFF excluding surrogates. -/
def utf8Valid : List Nat → Bool
  | [] => true
  | b :: rest =>
    if b ≤ 0x7F then utf8Valid rest
    else if 0xC2 ≤ b && b ≤ 0xDF then
      match rest with
      | c1 :: rest2 => isUtf8Cont c1 && utf8Valid rest2
      | [] => false
    else if b = 0xE0 then
      match rest with
      | c1 :: c2 :: rest2 =>
        (0xA0 ≤ c1 && c1 ≤ 0xBF) && isUtf8Cont c2 && utf8Valid rest2
      | _ => false
    else if (0xE1 ≤ b && b ≤ 0xEC) || b = 0xEE || b = 0xEF then
      match rest with
      | c1 :: c2 :: rest2 => isUtf8Cont c1 && isUtf8Cont c2 && utf8Valid rest2
      | _ => false
    else if b = 0xED then
      match rest with
      | c1 :: c2 :: rest2 =>
        (0x80 ≤ c1 && c1 ≤ 0x9F) && isUtf8Cont c2 && utf8Valid rest2
      | _ => false
    else if b = 0xF0 then
      match rest with
      | c1 :: c2 :: c3 :: rest2 =>
        (0x90 ≤ c1 && c1 ≤ 0xBF) && isUtf8Cont c2 && isUtf8Cont c3 && utf8Valid rest2
      | _ => false
    else if 0xF1 ≤ b && b ≤ 0xF3 then
      match rest with
      | c1 :: c2 :: c3 :: rest2 =>
        isUtf8Cont c1 && isUtf8Cont c2 && isUtf8Cont c3 && utf8Valid rest2
      | _ => false
    else if b = 0xF4 then
      match rest with
      | c1 :: c2 :: c3 :: rest2 =>
        (0x80 ≤ c1 && c1 ≤ 0x8F) && isUtf8Cont c2 && isUtf8Cont c3 && utf8Valid rest2
      | _ => false
    else false

/-- Model of `sections::Header::sh_name`: resolve the section's name through
the string table section, into a caller buffer.  The buffer matters only
through its length: it is zero-filled and then completely overwritten by the
read.  The result models the returned `&str` as its UTF-8 byte list. -/
def sections.Header.sh_name {E : Type} (hdr : sections.Header)
    (loader : Loader E) (buffer : List Nat) : Except (Error E) (List Nat) :=
  let string_section_idx := loader.e_shstrndx
  qe (sections.Header.new loader string_section_idx) fun string_section_header =>
  let string_start := (string_section_header.sh_offset + hdr.sh_name_offset) % u32Mod
  let zeroed := List.replicate buffer.length 0
  qm (loader.data_source.read string_start zeroed.length) fun bs =>
  match bytesUntilNul bs with
  | none => Except.error Error.NotEnoughSpace
  | some cstr => if utf8Valid cstr then Except.ok cstr else Except.error Error.InvalidString

/-- Allows you to iterate through the section headers
(`IterSectionHeaders` in `lib.rs`).  The index field is a u16. -/
structure IterSectionHeaders (E : Type) where
  parent : Loader E
  next_section : Nat

/-- One call of `IterSectionHeaders::next`: the yielded item (if any) paired
with the iterator state after the call. -/
def IterSectionHeaders.next {E : Type} (it : IterSectionHeaders E) :
    Option (Except (Error E) sections.Header) × IterSectionHeaders E :=
  if it.next_section = it.parent.e_shnum then
    (none, it)
  else
    let current_section := it.next_section
    (some (sections.Header.new it.parent current_section),
     { parent := it.parent, next_section := (current_section + 1) % u16Mod })

/-- Allows you to iterate through the program headers
(`IterProgramHeaders` in `lib.rs`).  The index field is a u16. -/
structure IterProgramHeaders (E : Type) where
  parent : Loader E
  next_program_header : Nat

/-- One call of `IterProgramHeaders::next`: the yielded item (if any) paired
with the iterator state after the call. -/
def IterProgramHeaders.next {E : Type} (it : IterProgramHeaders E) :
    Option (Except (Error E) segments.Header) × IterProgramHeaders E :=
  if it.next_program_header = it.parent.e_phnum then
    (none, it)
  else
    let current_program_header := it.next_program_header
    (some (segments.Header.new it.parent current_program_header),
     { parent := it.parent,
       next_program_header := (current_program_header + 1) % u16Mod })

/-- Model of `Loader::iter_section_headers`. -/
def Loader.iter_section_headers {E : Type} (loader : Loader E) :
    IterSectionHeaders E :=
  { parent := loader, next_section := 0 }

/-- Model of `Loader::iter_program_headers`. -/
def Loader.iter_program_headers {E : Type} (loader : Loader E) :
    IterProgramHeaders E :=
  { parent := loader, next_program_header := 0 }

/-- The iterator state after `k` calls of `next`, discarding the items. -/
def IterSectionHeaders.stepN {E : Type} (it : IterSectionHeaders E) :
    Nat → IterSectionHeaders E
  | 0 => it
  | k + 1 => (IterSectionHeaders.stepN it k).next.2

/-- The iterator state after `k` calls of `next`, discarding the items. -/
def IterProgramHeaders.stepN {E : Type} (it : IterProgramHeaders E) :
    Nat → IterProgramHeaders E
  | 0 => it
  | k + 1 => (IterProgramHeaders.stepN it k).next.2

/-- Outcome of one call of the reference `impl Source for &[u8]` read:
either the `assert!` guard tripped (a panic), or the range was out of bounds
(`SliceError`), or the read succeeded. -/
inductive SliceOutcome where
  | panicked
  | failed
  | succeeded
deriving Repr, DecidableEq

/-- `usize::MAX` on the 32-bit targets this crate is built for.  On a 64-bit
host, `(usize::MAX - desired_len) as u32` truncates to the same guard value
`usizeMax - desired_len` for every buffer shorter than 2^32 bytes. -/
def usizeMax : Nat := 4294967295

/-- Model of `<&[u8] as Source>::read` (`traits.rs`): the outcome together
with the caller buffer after the call.  The `assert!` guard is modelled as
the `panicked` outcome; `copy_from_slice` replaces the whole buffer, and on
the other outcomes the buffer is untouched. -/
def sliceRead (data : List Nat) (offset : Nat) (buffer : List Nat) :
    SliceOutcome × List Nat :=
  let desired_len := buffer.length
  if offset < usizeMax - desired_len then
    if offset + desired_len ≤ data.length then
      (SliceOutcome.succeeded, (data.drop offset).take desired_len)
    else
      (SliceOutcome.failed, buffer)
  else
    (SliceOutcome.panicked, buffer)

/-- A data source backed by a list of octets, reading a contiguous range and
failing when the range is out of bounds.  It behaves as the reference slice
implementation does whenever the address-overflow guard passes; it serves as
the concrete source for test fixtures. -/
def listSource (data : List Nat) (hd : ∀ b, b ∈ data → b < 256) :
    Source Unit where
  read := fun off len =>
    if off + len ≤ data.length then Except.ok ((data.drop off).take len)
    else Except.error ()
  read_len := by
    intro off len bs h
    simp only [] at h
    by_cases hin : off + len ≤ data.length
    · rw [if_pos hin] at h
      injection h with h2
      subst h2
      simp [List.length_take, List.length_drop]
      omega
    · rw [if_neg hin] at h
      exact absurd h (by simp)
  read_bytes := by
    intro off len bs h b hb
    simp only [] at h
    by_cases hin : off + len ≤ data.length
    · rw [if_pos hin] at h
      injection h with h2
      subst h2
      exact hd b (List.mem_of_mem_drop (List.mem_of_mem_take hb))
    · rw [if_neg hin] at h
      exact absurd h (by simp)

theorem fromLeBytes_nil : fromLeBytes [] = 0 := rfl

theorem fromLeBytes_cons (b : Nat) (bs : List Nat) :
    fromLeBytes (b :: bs) = fromLeBytes bs * 256 + b := rfl

/-- A little-endian assembly of octets is bounded by 256 to the byte count. -/
theorem fromLeBytes_lt (bs : List Nat) (h : ∀ b ∈ bs, b < 256) :
    fromLeBytes bs < 256 ^ bs.length := by
  induction bs with
  | nil => simp [fromLeBytes_nil]
  | cons b rest ih =>
    have hb : b < 256 := h b (List.mem_cons_self b rest)
    have hr := ih (fun x hx => h x (List.mem_cons_of_mem b hx))
    rw [fromLeBytes_cons, List.length_cons, pow_succ]
    omega

/-- A successful u16 little-endian read delivers a u16 value. -/
theorem read_u16_le_lt {E : Type} {ds : Source E} {off v : Nat}
    (h : ds.read_u16_le off = Except.ok v) : v < 65536 := by
  unfold Source.read_u16_le at h
  cases hr : ds.read off 2 with
  | error e => rw [hr] at h; simp [Except.map] at h
  | ok bs =>
    rw [hr] at h
    simp only [Except.map] at h
    injection h with h2
    subst h2
    have hlen := ds.read_len _ _ _ hr
    have := fromLeBytes_lt bs (ds.read_bytes _ _ _ hr)
    rw [hlen] at this
    simpa using this

/-- A successful u32 little-endian read delivers a u32 value. -/
theorem read_u32_le_lt {E : Type} {ds : Source E} {off v : Nat}
    (h : ds.read_u32_le off = Except.ok v) : v < 4294967296 := by
  unfold Source.read_u32_le at h
  cases hr : ds.read off 4 with
  | error e => rw [hr] at h; simp [Except.map] at h
  | ok bs =>
    rw [hr] at h
    simp only [Except.map] at h
    injection h with h2
    subst h2
    have hlen := ds.read_len _ _ _ hr
    have := fromLeBytes_lt bs (ds.read_bytes _ _ _ hr)
    rw [hlen] at this
    simpa using this

/-- Four octets assemble (big-endian) to the ELF magic exactly when they are
the signature bytes 0x7F `E` `L` `F`. -/
theorem fromBeBytes_eq_magic {bs : List Nat} (hlen : bs.length = 4)
    (hb : ∀ b ∈ bs, b < 256) :
    (fromBeBytes bs = Loader.ELF_MAGIC ↔ bs = [0x7F, 0x45, 0x4C, 0x46]) := by
  match bs, hlen with
  | [a, b, c, d], _ =>
    have ha : a < 256 := hb a (by simp)
    have hb2 : b < 256 := hb b (by simp)
    have hc : c < 256 := hb c (by simp)
    have hd : d < 256 := hb d (by simp)
    simp only [fromBeBytes, List.foldl, Loader.ELF_MAGIC, List.cons.injEq,
      and_true]
    constructor
    · intro h
      have : a = 127 ∧ b = 69 ∧ c = 76 ∧ d = 70 := by omega
      exact ⟨this.1, this.2.1, this.2.2.1, this.2.2.2⟩
    · intro h
      omega

namespace Loader

/-- `new` with a wrong magic fails with `NotAnElfFile`, whatever lies past
offset 4. -/
theorem new_bad_magic {E : Type} {ds : Source E} {m : Nat}
    (h0 : ds.read_u32_be 0x00 = Except.ok m) (hm : m ≠ ELF_MAGIC) :
    Loader.new ds = Except.error Error.NotAnElfFile := by
  unfold Loader.new
  rw [h0, qm_ok, if_pos hm]

/-- `new` with a good magic but wrong class/endian/version/ABI word fails
with `WrongElfFile`, whatever lies past offset 8. -/
theorem new_bad_cls {E : Type} {ds : Source E} {c : Nat}
    (h0 : ds.read_u32_be 0x00 = Except.ok ELF_MAGIC)
    (h1 : ds.read_u32_be 0x04 = Except.ok c) (hc : c ≠ DESIRED_ELF_VERSION) :
    Loader.new ds = Except.error Error.WrongElfFile := by
  unfold Loader.new
  rw [h0, qm_ok, if_neg (by simp), h1, qm_ok, if_pos hc]

/-- `new` with a wrong file type at 0x10 fails with `WrongElfFile`. -/
theorem new_bad_type {E : Type} {ds : Source E} {t : Nat}
    (h0 : ds.read_u32_be 0x00 = Except.ok ELF_MAGIC)
    (h1 : ds.read_u32_be 0x04 = Except.ok DESIRED_ELF_VERSION)
    (h2 : ds.read_u16_le 0x10 = Except.ok t) (ht : t ≠ ET_EXEC) :
    Loader.new ds = Except.error Error.WrongElfFile := by
  unfold Loader.new
  rw [h0, qm_ok, if_neg (by simp), h1, qm_ok, if_neg (by simp), h2, qm_ok,
    if_pos ht]

/-- `new` with a wrong machine at 0x12 fails with `WrongElfFile`. -/
theorem new_bad_machine {E : Type} {ds : Source E} {ma : Nat}
    (h0 : ds.read_u32_be 0x00 = Except.ok ELF_MAGIC)
    (h1 : ds.read_u32_be 0x04 = Except.ok DESIRED_ELF_VERSION)
    (h2 : ds.read_u16_le 0x10 = Except.ok ET_EXEC)
    (h3 : ds.read_u16_le 0x12 = Except.ok ma) (hma : ma ≠ EM_ARM) :
    Loader.new ds = Except.error Error.WrongElfFile := by
  unfold Loader.new
  rw [h0, qm_ok, if_neg (by simp), h1, qm_ok, if_neg (by simp), h2, qm_ok,
    if_neg (by simp), h3, qm_ok, if_pos hma]

/-- `new` with a wrong version field at 0x14 fails with `WrongElfFile`. -/
theorem new_bad_version {E : Type} {ds : Source E} {v : Nat}
    (h0 : ds.read_u32_be 0x00 = Except.ok ELF_MAGIC)
    (h1 : ds.read_u32_be 0x04 = Except.ok DESIRED_ELF_VERSION)
    (h2 : ds.read_u16_le 0x10 = Except.ok ET_EXEC)
    (h3 : ds.read_u16_le 0x12 = Except.ok EM_ARM)
    (h4 : ds.read_u32_le 0x14 = Except.ok v) (hv : v ≠ 1) :
    Loader.new ds = Except.error Error.WrongElfFile := by
  unfold Loader.new
  rw [h0, qm_ok, if_neg (by simp), h1, qm_ok, if_neg (by simp), h2, qm_ok,
    if_neg (by simp), h3, qm_ok, if_neg (by simp), h4, qm_ok, if_pos hv]

/-- `new` with a wrong program header entry size at 0x2A fails with
`WrongElfFile`, whatever lies past offset 0x2C. -/
theorem new_bad_phentsize {E : Type} {ds : Source E} {en po so ps : Nat}
    (h0 : ds.read_u32_be 0x00 = Except.ok ELF_MAGIC)
    (h1 : ds.read_u32_be 0x04 = Except.ok DESIRED_ELF_VERSION)
    (h2 : ds.read_u16_le 0x10 = Except.ok ET_EXEC)
    (h3 : ds.read_u16_le 0x12 = Except.ok EM_ARM)
    (h4 : ds.read_u32_le 0x14 = Except.ok 1)
    (h5 : ds.read_u32_le 0x18 = Except.ok en)
    (h6 : ds.read_u32_le 0x1C = Except.ok po)
    (h7 : ds.read_u32_le 0x20 = Except.ok so)
    (h8 : ds.read_u16_le 0x2A = Except.ok ps)
    (hps : ps ≠ segments.Header.SIZE_IN_BYTES) :
    Loader.new ds = Except.error Error.WrongElfFile := by
  unfold Loader.new
  rw [h0, qm_ok, if_neg (by simp), h1, qm_ok, if_neg (by simp), h2, qm_ok,
    if_neg (by simp), h3, qm_ok, if_neg (by simp), h4, qm_ok,
    if_neg (by simp), h5, qm_ok, h6, qm_ok, h7, qm_ok, h8, qm_ok, if_pos hps]

/-- `new` with a wrong section header entry size at 0x2E fails with
`WrongElfFile`, whatever lies past offset 0x30. -/
theorem new_bad_shentsize {E : Type} {ds : Source E} {en po so pn ss : Nat}
    (h0 : ds.read_u32_be 0x00 = Except.ok ELF_MAGIC)
    (h1 : ds.read_u32_be 0x04 = Except.ok DESIRED_ELF_VERSION)
    (h2 : ds.read_u16_le 0x10 = Except.ok ET_EXEC)
    (h3 : ds.read_u16_le 0x12 = Except.ok EM_ARM)
    (h4 : ds.read_u32_le 0x14 = Except.ok 1)
    (h5 : ds.read_u32_le 0x18 = Except.ok en)
    (h6 : ds.read_u32_le 0x1C = Except.ok po)
    (h7 : ds.read_u32_le 0x20 = Except.ok so)
    (h8 : ds.read_u16_le 0x2A = Except.ok segments.Header.SIZE_IN_BYTES)
    (h9 : ds.read_u16_le 0x2C = Except.ok pn)
    (h10 : ds.read_u16_le 0x2E = Except.ok ss)
    (hss : ss ≠ sections.Header.SIZE_IN_BYTES) :
    Loader.new ds = Except.error Error.WrongElfFile := by
  unfold Loader.new
  rw [h0, qm_ok, if_neg (by simp), h1, qm_ok, if_neg (by simp), h2, qm_ok,
    if_neg (by simp), h3, qm_ok, if_neg (by simp), h4, qm_ok,
    if_neg (by simp), h5, qm_ok, h6, qm_ok, h7, qm_ok, h8, qm_ok,
    if_neg (by simp), h9, qm_ok, h10, qm_ok, if_pos hss]

/-- `new` over a header whose reads and checks all pass constructs the
loader from exactly the read scalars. -/
theorem new_ok_of_reads {E : Type} {ds : Source E} {en po so pn sn si : Nat}
    (h0 : ds.read_u32_be 0x00 = Except.ok ELF_MAGIC)
    (h1 : ds.read_u32_be 0x04 = Except.ok DESIRED_ELF_VERSION)
    (h2 : ds.read_u16_le 0x10 = Except.ok ET_EXEC)
    (h3 : ds.read_u16_le 0x12 = Except.ok EM_ARM)
    (h4 : ds.read_u32_le 0x14 = Except.ok 1)
    (h5 : ds.read_u32_le 0x18 = Except.ok en)
    (h6 : ds.read_u32_le 0x1C = Except.ok po)
    (h7 : ds.read_u32_le 0x20 = Except.ok so)
    (h8 : ds.read_u16_le 0x2A = Except.ok segments.Header.SIZE_IN_BYTES)
    (h9 : ds.read_u16_le 0x2C = Except.ok pn)
    (h10 : ds.read_u16_le 0x2E = Except.ok sections.Header.SIZE_IN_BYTES)
    (h11 : ds.read_u16_le 0x30 = Except.ok sn)
    (h12 : ds.read_u16_le 0x32 = Except.ok si) :
    Loader.new ds = Except.ok
      { data_source := ds, e_entry := en, e_phoff := po, e_shoff := so,
        e_phnum := pn, e_shnum := sn, e_shstrndx := si } := by
  unfold Loader.new
  rw [h0, qm_ok, if_neg (by simp), h1, qm_ok, if_neg (by simp), h2, qm_ok,
    if_neg (by simp), h3, qm_ok, if_neg (by simp), h4, qm_ok,
    if_neg (by simp), h5, qm_ok, h6, qm_ok, h7, qm_ok, h8, qm_ok,
    if_neg (by simp), h9, qm_ok, h10, qm_ok, if_neg (by simp), h11, qm_ok,
    h12, qm_ok]

/-- Inversion of a successful construction: every check passed and the six
stored scalars are exactly the values read from the fixed header layout. -/
theorem new_ok_inv {E : Type} {ds : Source E} {L : Loader E}
    (h : Loader.new ds = Except.ok L) :
    L.data_source = ds ∧
    ds.read_u32_be 0x00 = Except.ok ELF_MAGIC ∧
    ds.read_u32_be 0x04 = Except.ok DESIRED_ELF_VERSION ∧
    ds.read_u16_le 0x10 = Except.ok ET_EXEC ∧
    ds.read_u16_le 0x12 = Except.ok EM_ARM ∧
    ds.read_u32_le 0x14 = Except.ok 1 ∧
    ds.read_u32_le 0x18 = Except.ok L.e_entry ∧
    ds.read_u32_le 0x1C = Except.ok L.e_phoff ∧
    ds.read_u32_le 0x20 = Except.ok L.e_shoff ∧
    ds.read_u16_le 0x2A = Except.ok segments.Header.SIZE_IN_BYTES ∧
    ds.read_u16_le 0x2C = Except.ok L.e_phnum ∧
    ds.read_u16_le 0x2E = Except.ok sections.Header.SIZE_IN_BYTES ∧
    ds.read_u16_le 0x30 = Except.ok L.e_shnum ∧
    ds.read_u16_le 0x32 = Except.ok L.e_shstrndx := by
  unfold Loader.new at h
  cases h0 : ds.read_u32_be 0x00 with
  | error e => rw [h0] at h; simp at h
  | ok m =>
  rw [h0, qm_ok] at h
  by_cases hm : m = ELF_MAGIC
  case neg => rw [if_pos hm] at h; simp at h
  subst hm
  rw [if_neg (by simp)] at h
  cases h1 : ds.read_u32_be 0x04 with
  | error e => rw [h1] at h; simp at h
  | ok c =>
  rw [h1, qm_ok] at h
  by_cases hc : c = DESIRED_ELF_VERSION
  case neg => rw [if_pos hc] at h; simp at h
  subst hc
  rw [if_neg (by simp)] at h
  cases h2 : ds.read_u16_le 0x10 with
  | error e => rw [h2] at h; simp at h
  | ok t =>
  rw [h2, qm_ok] at h
  by_cases ht : t = ET_EXEC
  case neg => rw [if_pos ht] at h; simp at h
  subst ht
  rw [if_neg (by simp)] at h
  cases h3 : ds.read_u16_le 0x12 with
  | error e => rw [h3] at h; simp at h
  | ok ma =>
  rw [h3, qm_ok] at h
  by_cases hma : ma = EM_ARM
  case neg => rw [if_pos hma] at h; simp at h
  subst hma
  rw [if_neg (by simp)] at h
  cases h4 : ds.read_u32_le 0x14 with
  | error e => rw [h4] at h; simp at h
  | ok v =>
  rw [h4, qm_ok] at h
  by_cases hv : v = 1
  case neg => rw [if_pos hv] at h; simp at h
  subst hv
  rw [if_neg (by simp)] at h
  cases h5 : ds.read_u32_le 0x18 with
  | error e => rw [h5] at h; simp at h
  | ok en =>
  rw [h5, qm_ok] at h
  cases h6 : ds.read_u32_le 0x1C with
  | error e => rw [h6] at h; simp at h
  | ok po =>
  rw [h6, qm_ok] at h
  cases h7 : ds.read_u32_le 0x20 with
  | error e => rw [h7] at h; simp at h
  | ok so =>
  rw [h7, qm_ok] at h
  cases h8 : ds.read_u16_le 0x2A with
  | error e => rw [h8] at h; simp at h
  | ok ps =>
  rw [h8, qm_ok] at h
  by_cases hps : ps = segments.Header.SIZE_IN_BYTES
  case neg => rw [if_pos hps] at h; simp at h
  subst hps
  rw [if_neg (by simp)] at h
  cases h9 : ds.read_u16_le 0x2C with
  | error e => rw [h9] at h; simp at h
  | ok pn =>
  rw [h9, qm_ok] at h
  cases h10 : ds.read_u16_le 0x2E with
  | error e => rw [h10] at h; simp at h
  | ok ss =>
  rw [h10, qm_ok] at h
  by_cases hss : ss = sections.Header.SIZE_IN_BYTES
  case neg => rw [if_pos hss] at h; simp at h
  subst hss
  rw [if_neg (by simp)] at h
  cases h11 : ds.read_u16_le 0x30 with
  | error e => rw [h11] at h; simp at h
  | ok sn =>
  rw [h11, qm_ok] at h
  cases h12 : ds.read_u16_le 0x32 with
  | error e => rw [h12] at h; simp at h
  | ok si =>
  rw [h12, qm_ok] at h
  injection h with h
  subst h
  exact ⟨rfl, rfl, rfl, rfl, rfl, rfl, rfl, rfl, rfl, rfl, rfl, rfl, rfl, rfl⟩

/-- The six scalars a successful construction stores are in the u32 and u16
ranges their header fields have. -/
theorem new_ok_bounds {E : Type} {ds : Source E} {L : Loader E}
    (h : Loader.new ds = Except.ok L) :
    L.e_entry < 4294967296 ∧ L.e_phoff < 4294967296 ∧
    L.e_shoff < 4294967296 ∧ L.e_phnum < 65536 ∧ L.e_shnum < 65536 ∧
    L.e_shstrndx < 65536 := by
  obtain ⟨-, -, -, -, -, -, h5, h6, h7, -, h9, -, h11, h12⟩ := new_ok_inv h
  exact ⟨read_u32_le_lt h5, read_u32_le_lt h6, read_u32_le_lt h7,
    read_u16_le_lt h9, read_u16_le_lt h11, read_u16_le_lt h12⟩

end Loader

/-- Decoding a program header from eight successful u32-LE reads at the
fixed sub-offsets of `phoff + idx * 32` (u32 arithmetic) yields exactly
those eight values as the record fields, for any index. -/
theorem segments.Header.ph_decode_of_reads {E : Type} {L : Loader E}
    {idx t o va pa fs ms fl al : Nat}
    (h0 : L.data_source.read_u32_le ((L.e_phoff + 32 * idx) % u32Mod) = Except.ok t)
    (h1 : L.data_source.read_u32_le (((L.e_phoff + 32 * idx) % u32Mod + 0x04) % u32Mod) = Except.ok o)
    (h2 : L.data_source.read_u32_le (((L.e_phoff + 32 * idx) % u32Mod + 0x08) % u32Mod) = Except.ok va)
    (h3 : L.data_source.read_u32_le (((L.e_phoff + 32 * idx) % u32Mod + 0x0C) % u32Mod) = Except.ok pa)
    (h4 : L.data_source.read_u32_le (((L.e_phoff + 32 * idx) % u32Mod + 0x10) % u32Mod) = Except.ok fs)
    (h5 : L.data_source.read_u32_le (((L.e_phoff + 32 * idx) % u32Mod + 0x14) % u32Mod) = Except.ok ms)
    (h6 : L.data_source.read_u32_le (((L.e_phoff + 32 * idx) % u32Mod + 0x18) % u32Mod) = Except.ok fl)
    (h7 : L.data_source.read_u32_le (((L.e_phoff + 32 * idx) % u32Mod + 0x1C) % u32Mod) = Except.ok al) :
    segments.Header.new L idx = Except.ok
      { p_type := t, p_offset := o, p_vaddr := va, p_paddr := pa,
        p_filesz := fs, p_memsz := ms, p_flags := fl, p_align := al } := by
  unfold segments.Header.new
  simp only [segments.Header.SIZE_IN_BYTES]
  rw [h0, qm_ok, h1, qm_ok, h2, qm_ok, h3, qm_ok, h4, qm_ok, h5, qm_ok,
    h6, qm_ok, h7, qm_ok]

/-- Inversion of a successful program header decode: each field is exactly
the u32-LE value read at its fixed sub-offset. -/
theorem segments.Header.ph_decode_inv {E : Type} {L : Loader E}
    {idx : Nat} {hdr : segments.Header}
    (h : segments.Header.new L idx = Except.ok hdr) :
    L.data_source.read_u32_le ((L.e_phoff + 32 * idx) % u32Mod) = Except.ok hdr.p_type ∧
    L.data_source.read_u32_le (((L.e_phoff + 32 * idx) % u32Mod + 0x04) % u32Mod) = Except.ok hdr.p_offset ∧
    L.data_source.read_u32_le (((L.e_phoff + 32 * idx) % u32Mod + 0x08) % u32Mod) = Except.ok hdr.p_vaddr ∧
    L.data_source.read_u32_le (((L.e_phoff + 32 * idx) % u32Mod + 0x0C) % u32Mod) = Except.ok hdr.p_paddr ∧
    L.data_source.read_u32_le (((L.e_phoff + 32 * idx) % u32Mod + 0x10) % u32Mod) = Except.ok hdr.p_filesz ∧
    L.data_source.read_u32_le (((L.e_phoff + 32 * idx) % u32Mod + 0x14) % u32Mod) = Except.ok hdr.p_memsz ∧
    L.data_source.read_u32_le (((L.e_phoff + 32 * idx) % u32Mod + 0x18) % u32Mod) = Except.ok hdr.p_flags ∧
    L.data_source.read_u32_le (((L.e_phoff + 32 * idx) % u32Mod + 0x1C) % u32Mod) = Except.ok hdr.p_align := by
  unfold segments.Header.new at h
  simp only [segments.Header.SIZE_IN_BYTES] at h
  cases h0 : L.data_source.read_u32_le ((L.e_phoff + 32 * idx) % u32Mod) with
  | error e => rw [h0] at h; simp at h
  | ok t =>
  rw [h0, qm_ok] at h
  cases h1 : L.data_source.read_u32_le (((L.e_phoff + 32 * idx) % u32Mod + 0x04) % u32Mod) with
  | error e => rw [h1] at h; simp at h
  | ok o =>
  rw [h1, qm_ok] at h
  cases h2 : L.data_source.read_u32_le (((L.e_phoff + 32 * idx) % u32Mod + 0x08) % u32Mod) with
  | error e => rw [h2] at h; simp at h
  | ok va =>
  rw [h2, qm_ok] at h
  cases h3 : L.data_source.read_u32_le (((L.e_phoff + 32 * idx) % u32Mod + 0x0C) % u32Mod) with
  | error e => rw [h3] at h; simp at h
  | ok pa =>
  rw [h3, qm_ok] at h
  cases h4 : L.data_source.read_u32_le (((L.e_phoff + 32 * idx) % u32Mod + 0x10) % u32Mod) with
  | error e => rw [h4] at h; simp at h
  | ok fs =>
  rw [h4, qm_ok] at h
  cases h5 : L.data_source.read_u32_le (((L.e_phoff + 32 * idx) % u32Mod + 0x14) % u32Mod) with
  | error e => rw [h5] at h; simp at h
  | ok ms =>
  rw [h5, qm_ok] at h
  cases h6 : L.data_source.read_u32_le (((L.e_phoff + 32 * idx) % u32Mod + 0x18) % u32Mod) with
  | error e => rw [h6] at h; simp at h
  | ok fl =>
  rw [h6, qm_ok] at h
  cases h7 : L.data_source.read_u32_le (((L.e_phoff + 32 * idx) % u32Mod + 0x1C) % u32Mod) with
  | error e => rw [h7] at h; simp at h
  | ok al =>
  rw [h7, qm_ok] at h
  injection h with h
  subst h
  exact ⟨rfl, rfl, rfl, rfl, rfl, rfl, rfl, rfl⟩

/-- Inversion of a successful section header decode: each field is exactly
the u32-LE value read at its fixed sub-offset of `shoff + idx * 40`. -/
theorem sections.Header.sh_decode_inv {E : Type} {L : Loader E}
    {idx : Nat} {hdr : sections.Header}
    (h : sections.Header.new L idx = Except.ok hdr) :
    L.data_source.read_u32_le ((L.e_shoff + 40 * idx) % u32Mod) = Except.ok hdr.sh_name_offset ∧
    L.data_source.read_u32_le (((L.e_shoff + 40 * idx) % u32Mod + 0x04) % u32Mod) = Except.ok hdr.sh_type ∧
    L.data_source.read_u32_le (((L.e_shoff + 40 * idx) % u32Mod + 0x08) % u32Mod) = Except.ok hdr.sh_flags ∧
    L.data_source.read_u32_le (((L.e_shoff + 40 * idx) % u32Mod + 0x0C) % u32Mod) = Except.ok hdr.sh_addr ∧
    L.data_source.read_u32_le (((L.e_shoff + 40 * idx) % u32Mod + 0x10) % u32Mod) = Except.ok hdr.sh_offset ∧
    L.data_source.read_u32_le (((L.e_shoff + 40 * idx) % u32Mod + 0x14) % u32Mod) = Except.ok hdr.sh_size ∧
    L.data_source.read_u32_le (((L.e_shoff + 40 * idx) % u32Mod + 0x18) % u32Mod) = Except.ok hdr.sh_link ∧
    L.data_source.read_u32_le (((L.e_shoff + 40 * idx) % u32Mod + 0x1C) % u32Mod) = Except.ok hdr.sh_info ∧
    L.data_source.read_u32_le (((L.e_shoff + 40 * idx) % u32Mod + 0x20) % u32Mod) = Except.ok hdr.sh_addralign ∧
    L.data_source.read_u32_le (((L.e_shoff + 40 * idx) % u32Mod + 0x24) % u32Mod) = Except.ok hdr.sh_entsize := by
  unfold sections.Header.new at h
  simp only [sections.Header.SIZE_IN_BYTES] at h
  cases h0 : L.data_source.read_u32_le ((L.e_shoff + 40 * idx) % u32Mod) with
  | error e => rw [h0] at h; simp at h
  | ok v0 =>
  rw [h0, qm_ok] at h
  cases h1 : L.data_source.read_u32_le (((L.e_shoff + 40 * idx) % u32Mod + 0x04) % u32Mod) with
  | error e => rw [h1] at h; simp at h
  | ok v1 =>
  rw [h1, qm_ok] at h
  cases h2 : L.data_source.read_u32_le (((L.e_shoff + 40 * idx) % u32Mod + 0x08) % u32Mod) with
  | error e => rw [h2] at h; simp at h
  | ok v2 =>
  rw [h2, qm_ok] at h
  cases h3 : L.data_source.read_u32_le (((L.e_shoff + 40 * idx) % u32Mod + 0x0C) % u32Mod) with
  | error e => rw [h3] at h; simp at h
  | ok v3 =>
  rw [h3, qm_ok] at h
  cases h4 : L.data_source.read_u32_le (((L.e_shoff + 40 * idx) % u32Mod + 0x10) % u32Mod) with
  | error e => rw [h4] at h; simp at h
  | ok v4 =>
  rw [h4, qm_ok] at h
  cases h5 : L.data_source.read_u32_le (((L.e_shoff + 40 * idx) % u32Mod + 0x14) % u32Mod) with
  | error e => rw [h5] at h; simp at h
  | ok v5 =>
  rw [h5, qm_ok] at h
  cases h6 : L.data_source.read_u32_le (((L.e_shoff + 40 * idx) % u32Mod + 0x18) % u32Mod) with
  | error e => rw [h6] at h; simp at h
  | ok v6 =>
  rw [h6, qm_ok] at h
  cases h7 : L.data_source.read_u32_le (((L.e_shoff + 40 * idx) % u32Mod + 0x1C) % u32Mod) with
  | error e => rw [h7] at h; simp at h
  | ok v7 =>
  rw [h7, qm_ok] at h
  cases h8 : L.data_source.read_u32_le (((L.e_shoff + 40 * idx) % u32Mod + 0x20) % u32Mod) with
  | error e => rw [h8] at h; simp at h
  | ok v8 =>
  rw [h8, qm_ok] at h
  cases h9 : L.data_source.read_u32_le (((L.e_shoff + 40 * idx) % u32Mod + 0x24) % u32Mod) with
  | error e => rw [h9] at h; simp at h
  | ok v9 =>
  rw [h9, qm_ok] at h
  injection h with h
  subst h
  exact ⟨rfl, rfl, rfl, rfl, rfl, rfl, rfl, rfl, rfl, rfl⟩

theorem IterProgramHeaders.ph_next_parent {E : Type} (it : IterProgramHeaders E) :
    (it.next).2.parent = it.parent := by
  unfold IterProgramHeaders.next
  split
  · rfl
  · rfl

theorem IterSectionHeaders.sh_next_parent {E : Type} (it : IterSectionHeaders E) :
    (it.next).2.parent = it.parent := by
  unfold IterSectionHeaders.next
  split
  · rfl
  · rfl

/-- A `next` call strictly below the count yields an item and advances. -/
theorem IterProgramHeaders.ph_next_of_ne {E : Type} {it : IterProgramHeaders E}
    (h : it.next_program_header ≠ it.parent.e_phnum) :
    it.next = (some (segments.Header.new it.parent it.next_program_header),
      { parent := it.parent,
        next_program_header := (it.next_program_header + 1) % u16Mod }) := by
  unfold IterProgramHeaders.next
  rw [if_neg h]

/-- A `next` call at the count yields end-of-sequence and leaves the state
unchanged. -/
theorem IterProgramHeaders.ph_next_of_eq {E : Type} {it : IterProgramHeaders E}
    (h : it.next_program_header = it.parent.e_phnum) :
    it.next = (none, it) := by
  unfold IterProgramHeaders.next
  rw [if_pos h]

theorem IterSectionHeaders.sh_next_of_ne {E : Type} {it : IterSectionHeaders E}
    (h : it.next_section ≠ it.parent.e_shnum) :
    it.next = (some (sections.Header.new it.parent it.next_section),
      { parent := it.parent,
        next_section := (it.next_section + 1) % u16Mod }) := by
  unfold IterSectionHeaders.next
  rw [if_neg h]

theorem IterSectionHeaders.sh_next_of_eq {E : Type} {it : IterSectionHeaders E}
    (h : it.next_section = it.parent.e_shnum) :
    it.next = (none, it) := by
  unfold IterSectionHeaders.next
  rw [if_pos h]

theorem IterProgramHeaders.ph_stepN_parent {E : Type} (it : IterProgramHeaders E)
    (k : Nat) : (it.stepN k).parent = it.parent := by
  induction k with
  | zero => rfl
  | succ k ih =>
    show ((it.stepN k).next).2.parent = it.parent
    rw [IterProgramHeaders.ph_next_parent, ih]

theorem IterSectionHeaders.sh_stepN_parent {E : Type} (it : IterSectionHeaders E)
    (k : Nat) : (it.stepN k).parent = it.parent := by
  induction k with
  | zero => rfl
  | succ k ih =>
    show ((it.stepN k).next).2.parent = it.parent
    rw [IterSectionHeaders.sh_next_parent, ih]

/-- Driving a fresh program header iterator `k ≤ count` times leaves it at
index `k`. -/
theorem IterProgramHeaders.ph_stepN_idx {E : Type} (L : Loader E)
    (hc : L.e_phnum < u16Mod) (k : Nat) (hk : k ≤ L.e_phnum) :
    ((L.iter_program_headers).stepN k).next_program_header = k := by
  induction k with
  | zero => rfl
  | succ k ih =>
    have hidx := ih (Nat.le_of_succ_le hk)
    have hne : ((L.iter_program_headers).stepN k).next_program_header ≠
        ((L.iter_program_headers).stepN k).parent.e_phnum := by
      rw [hidx, IterProgramHeaders.ph_stepN_parent]
      show k ≠ L.e_phnum
      omega
    show (((L.iter_program_headers).stepN k).next).2.next_program_header = k + 1
    rw [IterProgramHeaders.ph_next_of_ne hne]
    show (((L.iter_program_headers).stepN k).next_program_header + 1) % u16Mod = k + 1
    rw [hidx]
    have hc2 : L.e_phnum < 65536 := hc
    exact Nat.mod_eq_of_lt (by omega)

theorem IterSectionHeaders.sh_stepN_idx {E : Type} (L : Loader E)
    (hc : L.e_shnum < u16Mod) (k : Nat) (hk : k ≤ L.e_shnum) :
    ((L.iter_section_headers).stepN k).next_section = k := by
  induction k with
  | zero => rfl
  | succ k ih =>
    have hidx := ih (Nat.le_of_succ_le hk)
    have hne : ((L.iter_section_headers).stepN k).next_section ≠
        ((L.iter_section_headers).stepN k).parent.e_shnum := by
      rw [hidx, IterSectionHeaders.sh_stepN_parent]
      show k ≠ L.e_shnum
      omega
    show (((L.iter_section_headers).stepN k).next).2.next_section = k + 1
    rw [IterSectionHeaders.sh_next_of_ne hne]
    show (((L.iter_section_headers).stepN k).next_section + 1) % u16Mod = k + 1
    rw [hidx]
    have hc2 : L.e_shnum < 65536 := hc
    exact Nat.mod_eq_of_lt (by omega)

/-- Once a fresh program header iterator has been driven `count` or more
times it stays at index `count`. -/
theorem IterProgramHeaders.ph_stepN_idx_of_ge {E : Type} (L : Loader E)
    (hc : L.e_phnum < u16Mod) (k : Nat) (hk : L.e_phnum ≤ k) :
    ((L.iter_program_headers).stepN k).next_program_header = L.e_phnum := by
  induction k with
  | zero =>
    have : L.e_phnum = 0 := Nat.le_zero.mp hk
    rw [this]
    rfl
  | succ k ih =>
    by_cases hck : L.e_phnum ≤ k
    · have hidx := ih hck
      have heq : ((L.iter_program_headers).stepN k).next_program_header =
          ((L.iter_program_headers).stepN k).parent.e_phnum := by
        rw [hidx, IterProgramHeaders.ph_stepN_parent]
        rfl
      show (((L.iter_program_headers).stepN k).next).2.next_program_header = L.e_phnum
      rw [IterProgramHeaders.ph_next_of_eq heq]
      exact hidx
    · have hck2 : L.e_phnum = k + 1 := by omega
      rw [IterProgramHeaders.ph_stepN_idx L hc (k + 1) (by omega), hck2]

theorem IterSectionHeaders.sh_stepN_idx_of_ge {E : Type} (L : Loader E)
    (hc : L.e_shnum < u16Mod) (k : Nat) (hk : L.e_shnum ≤ k) :
    ((L.iter_section_headers).stepN k).next_section = L.e_shnum := by
  induction k with
  | zero =>
    have : L.e_shnum = 0 := Nat.le_zero.mp hk
    rw [this]
    rfl
  | succ k ih =>
    by_cases hck : L.e_shnum ≤ k
    · have hidx := ih hck
      have heq : ((L.iter_section_headers).stepN k).next_section =
          ((L.iter_section_headers).stepN k).parent.e_shnum := by
        rw [hidx, IterSectionHeaders.sh_stepN_parent]
        rfl
      show (((L.iter_section_headers).stepN k).next).2.next_section = L.e_shnum
      rw [IterSectionHeaders.sh_next_of_eq heq]
      exact hidx
    · have hck2 : L.e_shnum = k + 1 := by omega
      rw [IterSectionHeaders.sh_stepN_idx L hc (k + 1) (by omega), hck2]

/-- `bytesUntilNul` finds nothing exactly when the list has no zero byte. -/
theorem bytesUntilNul_eq_none_iff (bs : List Nat) :
    bytesUntilNul bs = none ↔ ¬ (0 ∈ bs) := by
  induction bs with
  | nil => simp [bytesUntilNul]
  | cons b rest ih =>
    by_cases hb : b = 0
    · subst hb
      simp [bytesUntilNul]
    · simp [bytesUntilNul, hb, ih, Ne.symm hb]

/-- When the list holds a zero byte, `bytesUntilNul` returns exactly the
bytes preceding the first zero byte. -/
theorem bytesUntilNul_of_mem {bs : List Nat} (h : 0 ∈ bs) :
    bytesUntilNul bs = some (bs.takeWhile (fun b => b != 0)) := by
  induction bs with
  | nil => cases h
  | cons b rest ih =>
    by_cases hb : b = 0
    · subst hb
      simp [bytesUntilNul, List.takeWhile]
    · have hrest : 0 ∈ rest := by
        rcases List.mem_cons.mp h with h1 | h2
        · exact absurd h1.symm hb
        · exact h2
      have hbne : (b != 0) = true := by simp [hb]
      simp [bytesUntilNul, hb, ih hrest, List.takeWhile, hbne]

/-- A small, fully valid fixture image: a valid header with entry point
0x1234, a one-entry program header table at 0x34, a two-entry section header
table at 0x74 whose section 1 is the string table (file offset 0xC4, size 4),
and the string data `"\0hi\0"` at 0xC4. -/
def fixtureBytes : List Nat :=
  [0x7F, 0x45, 0x4C, 0x46,
   0x01, 0x01, 0x01, 0x00,
   0, 0, 0, 0, 0, 0, 0, 0,
   0x02, 0x00,
   0x28, 0x00,
   0x01, 0x00, 0x00, 0x00,
   0x34, 0x12, 0x00, 0x00,
   0x34, 0x00, 0x00, 0x00,
   0x74, 0x00, 0x00, 0x00,
   0, 0, 0, 0,
   0, 0,
   0x20, 0x00,
   0x01, 0x00,
   0x28, 0x00,
   0x02, 0x00,
   0x01, 0x00]
  ++ [0x01, 0, 0, 0,
      0x00, 0x01, 0, 0,
      0x00, 0x02, 0, 0,
      0x00, 0x03, 0, 0,
      0x04, 0, 0, 0,
      0x08, 0, 0, 0,
      0x05, 0, 0, 0,
      0x04, 0, 0, 0]
  ++ List.replicate 32 0
  ++ List.replicate 40 0
  ++ [0, 0, 0, 0,
      0x03, 0, 0, 0,
      0, 0, 0, 0,
      0, 0, 0, 0,
      0xC4, 0, 0, 0,
      0x04, 0, 0, 0,
      0, 0, 0, 0,
      0, 0, 0, 0,
      0x01, 0, 0, 0,
      0, 0, 0, 0]
  ++ [0x00, 0x68, 0x69, 0x00]

/-- The fixture image as a data source. -/
def fixtureSource : Source Unit := listSource fixtureBytes (by decide)

/-- The loader that construction over the fixture image produces. -/
def fixtureLoader : Loader Unit :=
  { data_source := fixtureSource, e_entry := 0x1234, e_phoff := 0x34,
    e_shoff := 0x74, e_phnum := 1, e_shnum := 2, e_shstrndx := 1 }

end NeotronLoader

namespace NeotronLoader

/-- The 52-byte header of an image whose program header table offset is
0xFFFFFFFF with one program header entry: all dialect checks pass. -/
def c5HeaderBytes : List Nat :=
  [0x7F, 0x45, 0x4C, 0x46,
   0x01, 0x01, 0x01, 0x00,
   0, 0, 0, 0, 0, 0, 0, 0,
   0x02, 0x00,
   0x28, 0x00,
   0x01, 0x00, 0x00, 0x00,
   0, 0, 0, 0,
   0xFF, 0xFF, 0xFF, 0xFF,
   0, 0, 0, 0,
   0, 0, 0, 0,
   0, 0,
   0x20, 0x00,
   0x01, 0x00,
   0x28, 0x00,
   0x00, 0x00,
   0x00, 0x00]

/-- The program header the fixture's table holds at index 0. -/
def fixturePh0 : segments.Header :=
  { p_type := 1, p_offset := 0x100, p_vaddr := 0x200, p_paddr := 0x300,
    p_filesz := 4, p_memsz := 8, p_flags := 5, p_align := 4 }

/-- C4: decoding program header `index` reads eight u32-LE values at
`phoff + 32 * index + {0x00, 0x04, ..., 0x1C}` (in u32 arithmetic) and
returns a record whose fields are exactly those values in order; no bounds
check of `index` against the declared program header count is involved
(the index is arbitrary here, unrelated to `e_phnum`). -/
theorem c4_program_header_decode {E : Type} (L : Loader E) (idx : Nat) :
    (∀ hdr : segments.Header, segments.Header.new L idx = Except.ok hdr →
      L.data_source.read_u32_le ((L.e_phoff + 32 * idx) % u32Mod) = Except.ok hdr.p_type ∧
      L.data_source.read_u32_le (((L.e_phoff + 32 * idx) % u32Mod + 0x04) % u32Mod) = Except.ok hdr.p_offset ∧
      L.data_source.read_u32_le (((L.e_phoff + 32 * idx) % u32Mod + 0x08) % u32Mod) = Except.ok hdr.p_vaddr ∧
      L.data_source.read_u32_le (((L.e_phoff + 32 * idx) % u32Mod + 0x0C) % u32Mod) = Except.ok hdr.p_paddr ∧
      L.data_source.read_u32_le (((L.e_phoff + 32 * idx) % u32Mod + 0x10) % u32Mod) = Except.ok hdr.p_filesz ∧
      L.data_source.read_u32_le (((L.e_phoff + 32 * idx) % u32Mod + 0x14) % u32Mod) = Except.ok hdr.p_memsz ∧
      L.data_source.read_u32_le (((L.e_phoff + 32 * idx) % u32Mod + 0x18) % u32Mod) = Except.ok hdr.p_flags ∧
      L.data_source.read_u32_le (((L.e_phoff + 32 * idx) % u32Mod + 0x1C) % u32Mod) = Except.ok hdr.p_align) ∧
    (∀ t o va pa fs ms fl al : Nat,
      L.data_source.read_u32_le ((L.e_phoff + 32 * idx) % u32Mod) = Except.ok t →
      L.data_source.read_u32_le (((L.e_phoff + 32 * idx) % u32Mod + 0x04) % u32Mod) = Except.ok o →
      L.data_source.read_u32_le (((L.e_phoff + 32 * idx) % u32Mod + 0x08) % u32Mod) = Except.ok va →
      L.data_source.read_u32_le (((L.e_phoff + 32 * idx) % u32Mod + 0x0C) % u32Mod) = Except.ok pa →
      L.data_source.read_u32_le (((L.e_phoff + 32 * idx) % u32Mod + 0x10) % u32Mod) = Except.ok fs →
      L.data_source.read_u32_le (((L.e_phoff + 32 * idx) % u32Mod + 0x14) % u32Mod) = Except.ok ms →
      L.data_source.read_u32_le (((L.e_phoff + 32 * idx) % u32Mod + 0x18) % u32Mod) = Except.ok fl →
      L.data_source.read_u32_le (((L.e_phoff + 32 * idx) % u32Mod + 0x1C) % u32Mod) = Except.ok al →
      segments.Header.new L idx = Except.ok
        { p_type := t, p_offset := o, p_vaddr := va, p_paddr := pa,
          p_filesz := fs, p_memsz := ms, p_flags := fl, p_align := al }) := by
  constructor
  · intro hdr h
    exact segments.Header.ph_decode_inv h
  · intro t o va pa fs ms fl al h0 h1 h2 h3 h4 h5 h6 h7
    exact segments.Header.ph_decode_of_reads h0 h1 h2 h3 h4 h5 h6 h7

/-- Witness for C4 at a concrete input: the fixture declares only one
program header, yet index 2 decodes fine (reading section table bytes),
demonstrating the absence of a bounds check. -/
theorem c4_program_header_decode_witness :
    segments.Header.new fixtureLoader 2 = Except.ok
      { p_type := 0, p_offset := 0, p_vaddr := 0, p_paddr := 0,
        p_filesz := 0, p_memsz := 0, p_flags := 0, p_align := 0 } :=
  (c4_program_header_decode fixtureLoader 2).2 0 0 0 0 0 0 0 0
    (by decide) (by decide) (by decide) (by decide)
    (by decide) (by decide) (by decide) (by decide)

/-- C8: decoding the same program header index twice, or the same section
header index twice, over the same loader yields records that are
field-for-field identical. -/
theorem c8_decode_deterministic {E : Type} (L : Loader E) (idx : Nat) :
    (∀ h1 h2 : segments.Header, segments.Header.new L idx = Except.ok h1 →
      segments.Header.new L idx = Except.ok h2 →
      h1.p_type = h2.p_type ∧ h1.p_offset = h2.p_offset ∧
      h1.p_vaddr = h2.p_vaddr ∧ h1.p_paddr = h2.p_paddr ∧
      h1.p_filesz = h2.p_filesz ∧ h1.p_memsz = h2.p_memsz ∧
      h1.p_flags = h2.p_flags ∧ h1.p_align = h2.p_align) ∧
    (∀ g1 g2 : sections.Header, sections.Header.new L idx = Except.ok g1 →
      sections.Header.new L idx = Except.ok g2 →
      g1.sh_name_offset = g2.sh_name_offset ∧ g1.sh_type = g2.sh_type ∧
      g1.sh_flags = g2.sh_flags ∧ g1.sh_addr = g2.sh_addr ∧
      g1.sh_offset = g2.sh_offset ∧ g1.sh_size = g2.sh_size ∧
      g1.sh_link = g2.sh_link ∧ g1.sh_info = g2.sh_info ∧
      g1.sh_addralign = g2.sh_addralign ∧ g1.sh_entsize = g2.sh_entsize) := by
  constructor
  · intro h1 h2 e1 e2
    rw [e1] at e2
    injection e2 with e2
    subst e2
    exact ⟨rfl, rfl, rfl, rfl, rfl, rfl, rfl, rfl⟩
  · intro g1 g2 e1 e2
    rw [e1] at e2
    injection e2 with e2
    subst e2
    exact ⟨rfl, rfl, rfl, rfl, rfl, rfl, rfl, rfl, rfl, rfl⟩

/-- Witness for C8 at a concrete input: two decodes of fixture program
header 0 agree on every field. -/
theorem c8_decode_deterministic_witness :
    fixturePh0.p_type = fixturePh0.p_type ∧
    fixturePh0.p_offset = fixturePh0.p_offset ∧
    fixturePh0.p_vaddr = fixturePh0.p_vaddr ∧
    fixturePh0.p_paddr = fixturePh0.p_paddr ∧
    fixturePh0.p_filesz = fixturePh0.p_filesz ∧
    fixturePh0.p_memsz = fixturePh0.p_memsz ∧
    fixturePh0.p_flags = fixturePh0.p_flags ∧
    fixturePh0.p_align = fixturePh0.p_align :=
  (c8_decode_deterministic fixtureLoader 0).1 fixturePh0 fixturePh0
    (by decide) (by decide)

/-- Counterexample to C5 as stated: an image with `e_phoff = 0xFFFFFFFF`
and `e_phnum = 1` constructs successfully, but `segment_start_offset`
is the u32-wrapped 31, not the mathematical 0xFFFFFFFF + 1 * 32. -/
theorem c5_counterexample :
    (Loader.new (listSource c5HeaderBytes (by decide))).map
        (fun L => (L.e_phoff, L.e_phnum, L.segment_start_offset)) =
      Except.ok (4294967295, 1, 31) ∧
    (31 : Nat) ≠ 4294967295 + 1 * 32 := by
  constructor
  · decide
  · decide

/-- C5 amended: `segment_start_offset` equals
`(e_phoff + e_phnum * 32) mod 2^32` (the stored offset plus count times 32
in u32 arithmetic), and equals the exact integer sum whenever that sum does
not overflow u32. -/
theorem c5_segment_start_offset {E : Type} (L : Loader E) :
    L.segment_start_offset = (L.e_phoff + L.e_phnum * 32) % 4294967296 ∧
    (L.e_phoff + L.e_phnum * 32 < 4294967296 →
      L.segment_start_offset = L.e_phoff + L.e_phnum * 32) := by
  constructor
  · rfl
  · intro h
    exact Nat.mod_eq_of_lt h

/-- Witness for C5 (amended) at a concrete input: the fixture's program
header table starts at 0x34 with one 32-byte entry, so segments start at
0x54. -/
theorem c5_segment_start_offset_witness :
    fixtureLoader.segment_start_offset = 52 + 1 * 32 :=
  (c5_segment_start_offset fixtureLoader).2 (by decide)

/-- C6: after a successful construction the six stored scalars (returned
unchanged by the accessors of the pure `Loader` value) are exactly the
values read from the fixed header layout: `e_entry` the u32-LE at 0x18,
`e_phoff` at 0x1C, `e_shoff` at 0x20, `e_phnum` the u16-LE at 0x2C,
`e_shnum` at 0x30 and `e_shstrndx` at 0x32. -/
theorem c6_accessors_are_header_reads {E : Type} (ds : Source E)
    (L : Loader E) (h : Loader.new ds = Except.ok L) :
    ds.read_u32_le 0x18 = Except.ok L.e_entry ∧
    ds.read_u32_le 0x1C = Except.ok L.e_phoff ∧
    ds.read_u32_le 0x20 = Except.ok L.e_shoff ∧
    ds.read_u16_le 0x2C = Except.ok L.e_phnum ∧
    ds.read_u16_le 0x30 = Except.ok L.e_shnum ∧
    ds.read_u16_le 0x32 = Except.ok L.e_shstrndx ∧
    L.data_source = ds := by
  obtain ⟨hds, -, -, -, -, -, h5, h6, h7, -, h9, -, h11, h12⟩ :=
    Loader.new_ok_inv h
  exact ⟨h5, h6, h7, h9, h11, h12, hds⟩

/-- Witness for C6 at a concrete input: the fixture image constructs the
fixture loader, whose scalars are the header values. -/
theorem c6_accessors_witness :
    fixtureSource.read_u32_le 0x18 = Except.ok 0x1234 ∧
    fixtureSource.read_u32_le 0x1C = Except.ok 0x34 ∧
    fixtureSource.read_u32_le 0x20 = Except.ok 0x74 ∧
    fixtureSource.read_u16_le 0x2C = Except.ok 1 ∧
    fixtureSource.read_u16_le 0x30 = Except.ok 2 ∧
    fixtureSource.read_u16_le 0x32 = Except.ok 1 ∧
    fixtureLoader.data_source = fixtureSource :=
  c6_accessors_are_header_reads fixtureSource fixtureLoader rfl

/-- Counterexample to C7 as stated: reading zero bytes at offset 0xFFFFFFFF
over the empty slice is out of bounds and `offset + length` fits in the
address space (no overflow), so the claim demands a source error, yet the
implementation's `assert!` guard panics instead. -/
theorem c7_counterexample :
    ([] : List Nat).length < 4294967295 + 0 ∧
    4294967295 + 0 ≤ usizeMax ∧
    (sliceRead [] 4294967295 []).1 = SliceOutcome.panicked ∧
    (sliceRead [] 4294967295 []).1 ≠ SliceOutcome.failed := by
  refine ⟨by decide, by decide, by decide, by decide⟩

/-- C7 amended: below the guard threshold `offset < usizeMax - length` the
slice source returns exactly the in-range bytes on success and a source
error (buffer untouched) when out of bounds; at or above the threshold it
panics (rejects), which in particular rejects every `offset + length`
combination that would overflow address arithmetic. -/
theorem c7_slice_read (data : List Nat) (offset : Nat)
    (buffer : List Nat) (hlen : buffer.length ≤ usizeMax) :
    (offset < usizeMax - buffer.length →
      (offset + buffer.length ≤ data.length →
        sliceRead data offset buffer =
          (SliceOutcome.succeeded, (data.drop offset).take buffer.length)) ∧
      (data.length < offset + buffer.length →
        sliceRead data offset buffer = (SliceOutcome.failed, buffer))) ∧
    (usizeMax - buffer.length ≤ offset →
      sliceRead data offset buffer = (SliceOutcome.panicked, buffer)) ∧
    (usizeMax < offset + buffer.length →
      sliceRead data offset buffer = (SliceOutcome.panicked, buffer)) := by
  refine ⟨fun hg => ⟨fun hin => ?_, fun hout => ?_⟩, fun hg => ?_, fun hg => ?_⟩
  · simp only [sliceRead]
    rw [if_pos hg, if_pos hin]
  · simp only [sliceRead]
    rw [if_pos hg, if_neg (by omega)]
  · simp only [sliceRead]
    rw [if_neg (by omega)]
  · simp only [sliceRead]
    rw [if_neg (by omega)]

/-- Witness for C7 (amended) at a concrete input: an in-range read over
a three-byte slice succeeds with exactly the range's bytes. -/
theorem c7_slice_read_witness :
    sliceRead [5, 6, 7] 1 [9, 9] = (SliceOutcome.succeeded, [6, 7]) :=
  ((c7_slice_read [5, 6, 7] 1 [9, 9] (by decide)).1
    (by decide)).1 (by decide)

end NeotronLoader

namespace NeotronLoader

/-- A source with no data at all: every read fails. -/
def emptySource : Source Unit := listSource [] (by simp)

/-- A loader over the empty source that claims two program headers and two
section headers: every header decode fails with a source error. -/
def failingLoader : Loader Unit :=
  { data_source := emptySource, e_entry := 0, e_phoff := 0, e_shoff := 0,
    e_phnum := 2, e_shnum := 2, e_shstrndx := 0 }

/-- C2: over a successfully constructed loader, the program header iterator
yields an item on each of calls 1 to `e_phnum` and end-of-sequence (`none`,
never an error) on every later call, and likewise the section header
iterator with `e_shnum`. -/
theorem c2_iterators_yield_count {E : Type} (ds : Source E) (L : Loader E)
    (h : Loader.new ds = Except.ok L) :
    (∀ k, k < L.e_phnum → (((L.iter_program_headers).stepN k).next).1 =
        some (segments.Header.new L k)) ∧
    (∀ k, L.e_phnum ≤ k → (((L.iter_program_headers).stepN k).next).1 = none) ∧
    (∀ k, k < L.e_shnum → (((L.iter_section_headers).stepN k).next).1 =
        some (sections.Header.new L k)) ∧
    (∀ k, L.e_shnum ≤ k → (((L.iter_section_headers).stepN k).next).1 = none) := by
  obtain ⟨-, -, -, hpn, hsn, -⟩ := Loader.new_ok_bounds h
  refine ⟨fun k hk => ?_, fun k hk => ?_, fun k hk => ?_, fun k hk => ?_⟩
  · have hidx := IterProgramHeaders.ph_stepN_idx L hpn k (Nat.le_of_lt hk)
    have hne : ((L.iter_program_headers).stepN k).next_program_header ≠
        ((L.iter_program_headers).stepN k).parent.e_phnum := by
      rw [hidx, IterProgramHeaders.ph_stepN_parent]
      show k ≠ L.e_phnum
      omega
    rw [IterProgramHeaders.ph_next_of_ne hne]
    rw [IterProgramHeaders.ph_stepN_parent, hidx]
    rfl
  · have hidx := IterProgramHeaders.ph_stepN_idx_of_ge L hpn k hk
    have heq : ((L.iter_program_headers).stepN k).next_program_header =
        ((L.iter_program_headers).stepN k).parent.e_phnum := by
      rw [hidx, IterProgramHeaders.ph_stepN_parent]
      rfl
    rw [IterProgramHeaders.ph_next_of_eq heq]
  · have hidx := IterSectionHeaders.sh_stepN_idx L hsn k (Nat.le_of_lt hk)
    have hne : ((L.iter_section_headers).stepN k).next_section ≠
        ((L.iter_section_headers).stepN k).parent.e_shnum := by
      rw [hidx, IterSectionHeaders.sh_stepN_parent]
      show k ≠ L.e_shnum
      omega
    rw [IterSectionHeaders.sh_next_of_ne hne]
    rw [IterSectionHeaders.sh_stepN_parent, hidx]
    rfl
  · have hidx := IterSectionHeaders.sh_stepN_idx_of_ge L hsn k hk
    have heq : ((L.iter_section_headers).stepN k).next_section =
        ((L.iter_section_headers).stepN k).parent.e_shnum := by
      rw [hidx, IterSectionHeaders.sh_stepN_parent]
      rfl
    rw [IterSectionHeaders.sh_next_of_eq heq]

/-- Witness for C2 at a concrete input: the fixture declares one program
header; the first call yields it, the second call (count + 1) yields
end-of-sequence. -/
theorem c2_iterators_yield_count_witness :
    ((fixtureLoader.iter_program_headers.stepN 0).next).1 =
      some (segments.Header.new fixtureLoader 0) ∧
    ((fixtureLoader.iter_program_headers.stepN 1).next).1 = none :=
  ⟨(c2_iterators_yield_count fixtureSource fixtureLoader rfl).1 0 (by decide),
   (c2_iterators_yield_count fixtureSource fixtureLoader rfl).2.1 1
     (by decide)⟩

/-- C10: a `next` call whose index is below the stored count yields an item
(the raw decode result, an error included) and advances the index by exactly
one, whatever the decode outcome; consequently, over any loader (u16
counts), both fresh iterators yield exactly `count` items before
end-of-sequence even when every decode fails. -/
theorem c10_decode_error_does_not_terminate {E : Type} :
    (∀ it : IterProgramHeaders E, it.parent.e_phnum < 65536 →
      it.next_program_header < it.parent.e_phnum →
      (it.next).1 = some (segments.Header.new it.parent it.next_program_header) ∧
      (it.next).2.next_program_header = it.next_program_header + 1 ∧
      (it.next).2.parent = it.parent) ∧
    (∀ it : IterSectionHeaders E, it.parent.e_shnum < 65536 →
      it.next_section < it.parent.e_shnum →
      (it.next).1 = some (sections.Header.new it.parent it.next_section) ∧
      (it.next).2.next_section = it.next_section + 1 ∧
      (it.next).2.parent = it.parent) ∧
    (∀ L : Loader E, L.e_phnum < 65536 → ∀ k,
      (k < L.e_phnum →
        (((L.iter_program_headers).stepN k).next).1.isSome = true) ∧
      (L.e_phnum ≤ k →
        (((L.iter_program_headers).stepN k).next).1 = none)) ∧
    (∀ L : Loader E, L.e_shnum < 65536 → ∀ k,
      (k < L.e_shnum →
        (((L.iter_section_headers).stepN k).next).1.isSome = true) ∧
      (L.e_shnum ≤ k →
        (((L.iter_section_headers).stepN k).next).1 = none)) := by
  refine ⟨fun it hc hlt => ?_, fun it hc hlt => ?_,
    fun L hc k => ⟨fun hk => ?_, fun hk => ?_⟩,
    fun L hc k => ⟨fun hk => ?_, fun hk => ?_⟩⟩
  · rw [IterProgramHeaders.ph_next_of_ne (Nat.ne_of_lt hlt)]
    refine ⟨rfl, ?_, rfl⟩
    show (it.next_program_header + 1) % u16Mod = it.next_program_header + 1
    exact Nat.mod_eq_of_lt (by unfold u16Mod; omega)
  · rw [IterSectionHeaders.sh_next_of_ne (Nat.ne_of_lt hlt)]
    refine ⟨rfl, ?_, rfl⟩
    show (it.next_section + 1) % u16Mod = it.next_section + 1
    exact Nat.mod_eq_of_lt (by unfold u16Mod; omega)
  · have hidx := IterProgramHeaders.ph_stepN_idx L hc k (Nat.le_of_lt hk)
    have hne : ((L.iter_program_headers).stepN k).next_program_header ≠
        ((L.iter_program_headers).stepN k).parent.e_phnum := by
      rw [hidx, IterProgramHeaders.ph_stepN_parent]
      show k ≠ L.e_phnum
      omega
    rw [IterProgramHeaders.ph_next_of_ne hne]
    rfl
  · have hidx := IterProgramHeaders.ph_stepN_idx_of_ge L hc k hk
    have heq : ((L.iter_program_headers).stepN k).next_program_header =
        ((L.iter_program_headers).stepN k).parent.e_phnum := by
      rw [hidx, IterProgramHeaders.ph_stepN_parent]
      rfl
    rw [IterProgramHeaders.ph_next_of_eq heq]
  · have hidx := IterSectionHeaders.sh_stepN_idx L hc k (Nat.le_of_lt hk)
    have hne : ((L.iter_section_headers).stepN k).next_section ≠
        ((L.iter_section_headers).stepN k).parent.e_shnum := by
      rw [hidx, IterSectionHeaders.sh_stepN_parent]
      show k ≠ L.e_shnum
      omega
    rw [IterSectionHeaders.sh_next_of_ne hne]
    rfl
  · have hidx := IterSectionHeaders.sh_stepN_idx_of_ge L hc k hk
    have heq : ((L.iter_section_headers).stepN k).next_section =
        ((L.iter_section_headers).stepN k).parent.e_shnum := by
      rw [hidx, IterSectionHeaders.sh_stepN_parent]
      rfl
    rw [IterSectionHeaders.sh_next_of_eq heq]

/-- Witness for C10 at a concrete input: over a loader whose every decode
fails (empty source, two declared program headers), the first call still
yields an item (a source error) and advances the index to 1. -/
theorem c10_decode_error_does_not_terminate_witness :
    ((failingLoader.iter_program_headers).next).1 =
      some (segments.Header.new failingLoader 0) ∧
    ((failingLoader.iter_program_headers).next).2.next_program_header = 0 + 1 ∧
    segments.Header.new failingLoader 0 =
      Except.error (Error.Source ()) :=
  ⟨((c10_decode_error_does_not_terminate.1
      failingLoader.iter_program_headers) (by decide) (by decide)).1,
   ((c10_decode_error_does_not_terminate.1
      failingLoader.iter_program_headers) (by decide) (by decide)).2.1,
   by decide⟩

end NeotronLoader

namespace NeotronLoader

/-- C3: `sh_name` re-decodes the section header at the loader's stored
string table index (propagating that decode's failure), then reads exactly
`buffer.length` bytes at that section's file offset plus the record's name
offset (u32 arithmetic; a failed read propagates as a source failure), and
returns exactly the bytes preceding the first zero byte of what was read;
with no zero byte present it fails with `NotEnoughSpace`, and with invalid
UTF-8 before the zero it fails with `InvalidString`.  The buffer matters
only through its length (it is zero-filled and fully overwritten). -/
theorem c3_sh_name {E : Type} (L : Loader E) (hdr : sections.Header)
    (buffer : List Nat) :
    (∀ e, sections.Header.new L L.e_shstrndx = Except.error e →
      sections.Header.sh_name hdr L buffer = Except.error e) ∧
    (∀ strtab : sections.Header,
      sections.Header.new L L.e_shstrndx = Except.ok strtab →
      (∀ e, L.data_source.read
          ((strtab.sh_offset + hdr.sh_name_offset) % u32Mod) buffer.length =
            Except.error e →
        sections.Header.sh_name hdr L buffer =
          Except.error (Error.Source e)) ∧
      (∀ bs, L.data_source.read
          ((strtab.sh_offset + hdr.sh_name_offset) % u32Mod) buffer.length =
            Except.ok bs →
        bs.length = buffer.length ∧
        (¬ (0 ∈ bs) → sections.Header.sh_name hdr L buffer =
          Except.error Error.NotEnoughSpace) ∧
        (0 ∈ bs →
          (utf8Valid (bs.takeWhile (fun b => b != 0)) = true →
            sections.Header.sh_name hdr L buffer =
              Except.ok (bs.takeWhile (fun b => b != 0))) ∧
          (utf8Valid (bs.takeWhile (fun b => b != 0)) = false →
            sections.Header.sh_name hdr L buffer =
              Except.error Error.InvalidString)))) ∧
    (∀ buffer2 : List Nat, buffer2.length = buffer.length →
      sections.Header.sh_name hdr L buffer2 =
        sections.Header.sh_name hdr L buffer) := by
  refine ⟨fun e he => ?_, fun strtab hst => ?_, fun buffer2 hlen2 => ?_⟩
  · simp only [sections.Header.sh_name, List.length_replicate]
    rw [he, qe_error]
  · refine ⟨fun e hre => ?_, fun bs hrb => ?_⟩
    · simp only [sections.Header.sh_name, List.length_replicate]
      rw [hst, qe_ok, hre, qm_error]
    · refine ⟨L.data_source.read_len _ _ _ hrb, fun h0 => ?_, fun h0 => ?_⟩
      · simp only [sections.Header.sh_name, List.length_replicate]
        rw [hst, qe_ok, hrb, qm_ok, (bytesUntilNul_eq_none_iff bs).mpr h0]
      · refine ⟨fun hval => ?_, fun hval => ?_⟩
        · simp only [sections.Header.sh_name, List.length_replicate]
          rw [hst, qe_ok, hrb, qm_ok, bytesUntilNul_of_mem h0]
          show (if utf8Valid (bs.takeWhile (fun b => b != 0)) then _ else _) = _
          rw [if_pos hval]
        · simp only [sections.Header.sh_name, List.length_replicate]
          rw [hst, qe_ok, hrb, qm_ok, bytesUntilNul_of_mem h0]
          show (if utf8Valid (bs.takeWhile (fun b => b != 0)) then _ else _) = _
          rw [if_neg (by simp [hval])]
  · simp only [sections.Header.sh_name, List.length_replicate]
    rw [hlen2]

/-- Witness for C3 at a concrete input: over the fixture image, a record
whose name offset is 1 resolves through the string table section (file
offset 0xC4) to the bytes of `"hi"`, using a three-byte caller buffer. -/
theorem c3_sh_name_witness :
    sections.Header.sh_name
      { sh_name_offset := 1, sh_type := 0, sh_flags := 0, sh_addr := 0,
        sh_offset := 0, sh_size := 0, sh_link := 0, sh_info := 0,
        sh_addralign := 0, sh_entsize := 0 } fixtureLoader [7, 7, 7] =
      Except.ok [0x68, 0x69] :=
  ((((c3_sh_name fixtureLoader
      { sh_name_offset := 1, sh_type := 0, sh_flags := 0, sh_addr := 0,
        sh_offset := 0, sh_size := 0, sh_link := 0, sh_info := 0,
        sh_addralign := 0, sh_entsize := 0 } [7, 7, 7]).2.1
      { sh_name_offset := 0, sh_type := 3, sh_flags := 0, sh_addr := 0,
        sh_offset := 196, sh_size := 4, sh_link := 0, sh_info := 0,
        sh_addralign := 1, sh_entsize := 0 } (by decide)).2
      [0x68, 0x69, 0x00] (by decide)).2.2 (by decide)).1 (by decide)

end NeotronLoader

namespace NeotronLoader

/-- Two construction outcomes agree: the same error, or loaders holding
identical stored scalars (the data source itself is not compared). -/
def sameOutcome {E : Type} (r1 r2 : Except (Error E) (Loader E)) : Prop :=
  match r1, r2 with
  | Except.error e1, Except.error e2 => e1 = e2
  | Except.ok l1, Except.ok l2 =>
      l1.e_entry = l2.e_entry ∧ l1.e_phoff = l2.e_phoff ∧
      l1.e_shoff = l2.e_shoff ∧ l1.e_phnum = l2.e_phnum ∧
      l1.e_shnum = l2.e_shnum ∧ l1.e_shstrndx = l2.e_shstrndx
  | _, _ => False

/-- Two list sources whose data agree on the first `n` bytes answer every
read lying within those `n` bytes identically. -/
theorem listSource_agree {d1 d2 : List Nat}
    {h1 : ∀ b, b ∈ d1 → b < 256} {h2 : ∀ b, b ∈ d2 → b < 256} {n : Nat}
    (hn1 : n ≤ d1.length) (hn2 : n ≤ d2.length)
    (htake : d1.take n = d2.take n) :
    ∀ off len, off + len ≤ n →
      (listSource d1 h1).read off len = (listSource d2 h2).read off len := by
  intro off len hol
  show (if off + len ≤ d1.length then Except.ok ((d1.drop off).take len)
        else Except.error ()) =
       (if off + len ≤ d2.length then Except.ok ((d2.drop off).take len)
        else Except.error ())
  rw [if_pos (le_trans hol hn1), if_pos (le_trans hol hn2)]
  have key : ∀ d : List Nat, n ≤ d.length →
      (d.drop off).take len = ((d.take n).drop off).take len := by
    intro d hnd
    rw [List.drop_take, List.take_take]
    congr 1
    omega
  rw [key d1 hn1, key d2 hn2, htake]

/-- C9: construction reads only within offsets 0x00 to 0x33; two sources
whose reads within that region agree produce the same outcome — the same
error, or loaders with identical stored scalars — whatever either source
holds beyond offset 0x33. -/
theorem c9_construction_reads_only_header {E : Type} (s1 s2 : Source E)
    (h : ∀ off len, off + len ≤ 0x34 → s1.read off len = s2.read off len) :
    sameOutcome (Loader.new s1) (Loader.new s2) := by
  have r00 : s1.read_u32_be 0x00 = s2.read_u32_be 0x00 := by
    unfold Source.read_u32_be; rw [h 0x00 4 (by omega)]
  have r04 : s1.read_u32_be 0x04 = s2.read_u32_be 0x04 := by
    unfold Source.read_u32_be; rw [h 0x04 4 (by omega)]
  have r10 : s1.read_u16_le 0x10 = s2.read_u16_le 0x10 := by
    unfold Source.read_u16_le; rw [h 0x10 2 (by omega)]
  have r12 : s1.read_u16_le 0x12 = s2.read_u16_le 0x12 := by
    unfold Source.read_u16_le; rw [h 0x12 2 (by omega)]
  have r14 : s1.read_u32_le 0x14 = s2.read_u32_le 0x14 := by
    unfold Source.read_u32_le; rw [h 0x14 4 (by omega)]
  have r18 : s1.read_u32_le 0x18 = s2.read_u32_le 0x18 := by
    unfold Source.read_u32_le; rw [h 0x18 4 (by omega)]
  have r1C : s1.read_u32_le 0x1C = s2.read_u32_le 0x1C := by
    unfold Source.read_u32_le; rw [h 0x1C 4 (by omega)]
  have r20 : s1.read_u32_le 0x20 = s2.read_u32_le 0x20 := by
    unfold Source.read_u32_le; rw [h 0x20 4 (by omega)]
  have r2A : s1.read_u16_le 0x2A = s2.read_u16_le 0x2A := by
    unfold Source.read_u16_le; rw [h 0x2A 2 (by omega)]
  have r2C : s1.read_u16_le 0x2C = s2.read_u16_le 0x2C := by
    unfold Source.read_u16_le; rw [h 0x2C 2 (by omega)]
  have r2E : s1.read_u16_le 0x2E = s2.read_u16_le 0x2E := by
    unfold Source.read_u16_le; rw [h 0x2E 2 (by omega)]
  have r30 : s1.read_u16_le 0x30 = s2.read_u16_le 0x30 := by
    unfold Source.read_u16_le; rw [h 0x30 2 (by omega)]
  have r32 : s1.read_u16_le 0x32 = s2.read_u16_le 0x32 := by
    unfold Source.read_u16_le; rw [h 0x32 2 (by omega)]
  unfold Loader.new
  rw [r00, r04, r10, r12, r14, r18, r1C, r20, r2A, r2C, r2E, r30, r32]
  cases k0 : s2.read_u32_be 0x00 with
  | error e => exact rfl
  | ok m =>
  simp only [qm_ok]
  by_cases c0 : m = Loader.ELF_MAGIC
  case neg => simp only [if_pos c0]; exact rfl
  subst c0
  simp only [if_neg (show ¬(Loader.ELF_MAGIC ≠ Loader.ELF_MAGIC) from by simp)]
  cases k1 : s2.read_u32_be 0x04 with
  | error e => exact rfl
  | ok c =>
  simp only [qm_ok]
  by_cases c1 : c = Loader.DESIRED_ELF_VERSION
  case neg => simp only [if_pos c1]; exact rfl
  subst c1
  simp only [if_neg
    (show ¬(Loader.DESIRED_ELF_VERSION ≠ Loader.DESIRED_ELF_VERSION) from
      by simp)]
  cases k2 : s2.read_u16_le 0x10 with
  | error e => exact rfl
  | ok t =>
  simp only [qm_ok]
  by_cases c2 : t = Loader.ET_EXEC
  case neg => simp only [if_pos c2]; exact rfl
  subst c2
  simp only [if_neg (show ¬(Loader.ET_EXEC ≠ Loader.ET_EXEC) from by simp)]
  cases k3 : s2.read_u16_le 0x12 with
  | error e => exact rfl
  | ok ma =>
  simp only [qm_ok]
  by_cases c3 : ma = Loader.EM_ARM
  case neg => simp only [if_pos c3]; exact rfl
  subst c3
  simp only [if_neg (show ¬(Loader.EM_ARM ≠ Loader.EM_ARM) from by simp)]
  cases k4 : s2.read_u32_le 0x14 with
  | error e => exact rfl
  | ok v =>
  simp only [qm_ok]
  by_cases c4 : v = 1
  case neg => simp only [if_pos c4]; exact rfl
  subst c4
  simp only [if_neg (show ¬((1 : Nat) ≠ 1) from by simp)]
  cases k5 : s2.read_u32_le 0x18 with
  | error e => exact rfl
  | ok en =>
  simp only [qm_ok]
  cases k6 : s2.read_u32_le 0x1C with
  | error e => exact rfl
  | ok po =>
  simp only [qm_ok]
  cases k7 : s2.read_u32_le 0x20 with
  | error e => exact rfl
  | ok so =>
  simp only [qm_ok]
  cases k8 : s2.read_u16_le 0x2A with
  | error e => exact rfl
  | ok ps =>
  simp only [qm_ok]
  by_cases c8 : ps = segments.Header.SIZE_IN_BYTES
  case neg => simp only [if_pos c8]; exact rfl
  subst c8
  simp only [if_neg
    (show ¬(segments.Header.SIZE_IN_BYTES ≠ segments.Header.SIZE_IN_BYTES)
      from by simp)]
  cases k9 : s2.read_u16_le 0x2C with
  | error e => exact rfl
  | ok pn =>
  simp only [qm_ok]
  cases k10 : s2.read_u16_le 0x2E with
  | error e => exact rfl
  | ok ss =>
  simp only [qm_ok]
  by_cases c10 : ss = sections.Header.SIZE_IN_BYTES
  case neg => simp only [if_pos c10]; exact rfl
  subst c10
  simp only [if_neg
    (show ¬(sections.Header.SIZE_IN_BYTES ≠ sections.Header.SIZE_IN_BYTES)
      from by simp)]
  cases k11 : s2.read_u16_le 0x30 with
  | error e => exact rfl
  | ok sn =>
  simp only [qm_ok]
  cases k12 : s2.read_u16_le 0x32 with
  | error e => exact rfl
  | ok si =>
  simp only [qm_ok]
  exact ⟨rfl, rfl, rfl, rfl, rfl, rfl⟩

/-- Witness for C9 at a concrete input: the fixture image and the fixture
image with different trailing bytes appended construct loaders with the
same scalars. -/
theorem c9_construction_reads_only_header_witness :
    sameOutcome (Loader.new fixtureSource)
      (Loader.new (listSource (fixtureBytes ++ [0xAB, 0xCD]) (by decide))) :=
  c9_construction_reads_only_header fixtureSource
    (listSource (fixtureBytes ++ [0xAB, 0xCD]) (by decide))
    (listSource_agree (by decide) (by decide) (by decide))

end NeotronLoader

namespace NeotronLoader

/-- C1: over sources whose header-region reads succeed, construction fails
with `NotAnElfFile` exactly when the first four bytes differ from the ELF
signature, and (the signature matching) fails with `WrongElfFile` exactly
when the class/endianness/version/ABI word at 0x04, the file type at 0x10,
the machine at 0x12, the version at 0x14, the program header entry size at
0x2A or the section header entry size at 0x2E differs from its required
value.  The checks run in that order and short-circuit: the first seven
conjuncts each fix only a prefix of the reads and conclude from the first
failing check, whatever lies beyond it; the eighth shows every check
passing yields success. -/
theorem c1_header_validation {E : Type} :
    (∀ ds : Source E, ∀ bs : List Nat, ds.read 0x00 4 = Except.ok bs →
      bs ≠ [0x7F, 0x45, 0x4C, 0x46] →
      Loader.new ds = Except.error Error.NotAnElfFile) ∧
    (∀ ds : Source E, ∀ c : Nat,
      ds.read 0x00 4 = Except.ok [0x7F, 0x45, 0x4C, 0x46] →
      ds.read_u32_be 0x04 = Except.ok c → c ≠ 0x01010100 →
      Loader.new ds = Except.error Error.WrongElfFile) ∧
    (∀ ds : Source E, ∀ t : Nat,
      ds.read 0x00 4 = Except.ok [0x7F, 0x45, 0x4C, 0x46] →
      ds.read_u32_be 0x04 = Except.ok 0x01010100 →
      ds.read_u16_le 0x10 = Except.ok t → t ≠ 0x02 →
      Loader.new ds = Except.error Error.WrongElfFile) ∧
    (∀ ds : Source E, ∀ ma : Nat,
      ds.read 0x00 4 = Except.ok [0x7F, 0x45, 0x4C, 0x46] →
      ds.read_u32_be 0x04 = Except.ok 0x01010100 →
      ds.read_u16_le 0x10 = Except.ok 0x02 →
      ds.read_u16_le 0x12 = Except.ok ma → ma ≠ 0x28 →
      Loader.new ds = Except.error Error.WrongElfFile) ∧
    (∀ ds : Source E, ∀ v : Nat,
      ds.read 0x00 4 = Except.ok [0x7F, 0x45, 0x4C, 0x46] →
      ds.read_u32_be 0x04 = Except.ok 0x01010100 →
      ds.read_u16_le 0x10 = Except.ok 0x02 →
      ds.read_u16_le 0x12 = Except.ok 0x28 →
      ds.read_u32_le 0x14 = Except.ok v → v ≠ 1 →
      Loader.new ds = Except.error Error.WrongElfFile) ∧
    (∀ ds : Source E, ∀ en po so ps : Nat,
      ds.read 0x00 4 = Except.ok [0x7F, 0x45, 0x4C, 0x46] →
      ds.read_u32_be 0x04 = Except.ok 0x01010100 →
      ds.read_u16_le 0x10 = Except.ok 0x02 →
      ds.read_u16_le 0x12 = Except.ok 0x28 →
      ds.read_u32_le 0x14 = Except.ok 1 →
      ds.read_u32_le 0x18 = Except.ok en →
      ds.read_u32_le 0x1C = Except.ok po →
      ds.read_u32_le 0x20 = Except.ok so →
      ds.read_u16_le 0x2A = Except.ok ps → ps ≠ 32 →
      Loader.new ds = Except.error Error.WrongElfFile) ∧
    (∀ ds : Source E, ∀ en po so pn ss : Nat,
      ds.read 0x00 4 = Except.ok [0x7F, 0x45, 0x4C, 0x46] →
      ds.read_u32_be 0x04 = Except.ok 0x01010100 →
      ds.read_u16_le 0x10 = Except.ok 0x02 →
      ds.read_u16_le 0x12 = Except.ok 0x28 →
      ds.read_u32_le 0x14 = Except.ok 1 →
      ds.read_u32_le 0x18 = Except.ok en →
      ds.read_u32_le 0x1C = Except.ok po →
      ds.read_u32_le 0x20 = Except.ok so →
      ds.read_u16_le 0x2A = Except.ok 32 →
      ds.read_u16_le 0x2C = Except.ok pn →
      ds.read_u16_le 0x2E = Except.ok ss → ss ≠ 40 →
      Loader.new ds = Except.error Error.WrongElfFile) ∧
    (∀ ds : Source E, ∀ en po so pn sn si : Nat,
      ds.read 0x00 4 = Except.ok [0x7F, 0x45, 0x4C, 0x46] →
      ds.read_u32_be 0x04 = Except.ok 0x01010100 →
      ds.read_u16_le 0x10 = Except.ok 0x02 →
      ds.read_u16_le 0x12 = Except.ok 0x28 →
      ds.read_u32_le 0x14 = Except.ok 1 →
      ds.read_u32_le 0x18 = Except.ok en →
      ds.read_u32_le 0x1C = Except.ok po →
      ds.read_u32_le 0x20 = Except.ok so →
      ds.read_u16_le 0x2A = Except.ok 32 →
      ds.read_u16_le 0x2C = Except.ok pn →
      ds.read_u16_le 0x2E = Except.ok 40 →
      ds.read_u16_le 0x30 = Except.ok sn →
      ds.read_u16_le 0x32 = Except.ok si →
      Loader.new ds = Except.ok
        { data_source := ds, e_entry := en, e_phoff := po, e_shoff := so,
          e_phnum := pn, e_shnum := sn, e_shstrndx := si }) ∧
    (∀ ds : Source E,
      (∀ off len, off + len ≤ 0x34 → ∃ bs2, ds.read off len = Except.ok bs2) →
      ((Loader.new ds = Except.error Error.NotAnElfFile ↔
        ds.read 0x00 4 ≠ Except.ok [0x7F, 0x45, 0x4C, 0x46]) ∧
       (Loader.new ds = Except.error Error.WrongElfFile ↔
        (ds.read 0x00 4 = Except.ok [0x7F, 0x45, 0x4C, 0x46] ∧
         (ds.read_u32_be 0x04 ≠ Except.ok 0x01010100 ∨
          ds.read_u16_le 0x10 ≠ Except.ok 0x02 ∨
          ds.read_u16_le 0x12 ≠ Except.ok 0x28 ∨
          ds.read_u32_le 0x14 ≠ Except.ok 1 ∨
          ds.read_u16_le 0x2A ≠ Except.ok 32 ∨
          ds.read_u16_le 0x2E ≠ Except.ok 40))))) := by
  have magic_read : ∀ ds : Source E, ∀ bs : List Nat,
      ds.read 0x00 4 = Except.ok bs →
      ds.read_u32_be 0x00 = Except.ok (fromBeBytes bs) := by
    intro ds bs hbs
    unfold Source.read_u32_be
    rw [hbs]
    rfl
  have magic_ne : ∀ ds : Source E, ∀ bs : List Nat,
      ds.read 0x00 4 = Except.ok bs → bs ≠ [0x7F, 0x45, 0x4C, 0x46] →
      fromBeBytes bs ≠ Loader.ELF_MAGIC := by
    intro ds bs hbs hne hEq
    exact hne ((fromBeBytes_eq_magic (ds.read_len _ _ _ hbs)
      (ds.read_bytes _ _ _ hbs)).mp hEq)
  refine ⟨?_, ?_, ?_, ?_, ?_, ?_, ?_, ?_, ?_⟩
  · intro ds bs hbs hne
    exact Loader.new_bad_magic (magic_read ds bs hbs) (magic_ne ds bs hbs hne)
  · intro ds c hbs hc hne
    exact Loader.new_bad_cls (magic_read ds _ hbs) hc hne
  · intro ds t hbs hc ht hne
    exact Loader.new_bad_type (magic_read ds _ hbs) hc ht hne
  · intro ds ma hbs hc ht hma hne
    exact Loader.new_bad_machine (magic_read ds _ hbs) hc ht hma hne
  · intro ds v hbs hc ht hma hv hne
    exact Loader.new_bad_version (magic_read ds _ hbs) hc ht hma hv hne
  · intro ds en po so ps hbs hc ht hma hv hen hpo hso hps hne
    exact Loader.new_bad_phentsize (magic_read ds _ hbs) hc ht hma hv hen hpo
      hso hps hne
  · intro ds en po so pn ss hbs hc ht hma hv hen hpo hso hps hpn hss hne
    exact Loader.new_bad_shentsize (magic_read ds _ hbs) hc ht hma hv hen hpo
      hso hps hpn hss hne
  · intro ds en po so pn sn si hbs hc ht hma hv hen hpo hso hps hpn hss hsn
      hsi
    exact Loader.new_ok_of_reads (magic_read ds _ hbs) hc ht hma hv hen hpo
      hso hps hpn hss hsn hsi
  · intro ds hsucc
    obtain ⟨b0, hb0⟩ := hsucc 0x00 4 (by omega)
    obtain ⟨b1, hb1⟩ := hsucc 0x04 4 (by omega)
    obtain ⟨b2, hb2⟩ := hsucc 0x10 2 (by omega)
    obtain ⟨b3, hb3⟩ := hsucc 0x12 2 (by omega)
    obtain ⟨b4, hb4⟩ := hsucc 0x14 4 (by omega)
    obtain ⟨b5, hb5⟩ := hsucc 0x18 4 (by omega)
    obtain ⟨b6, hb6⟩ := hsucc 0x1C 4 (by omega)
    obtain ⟨b7, hb7⟩ := hsucc 0x20 4 (by omega)
    obtain ⟨b8, hb8⟩ := hsucc 0x2A 2 (by omega)
    obtain ⟨b9, hb9⟩ := hsucc 0x2C 2 (by omega)
    obtain ⟨b10, hb10⟩ := hsucc 0x2E 2 (by omega)
    obtain ⟨b11, hb11⟩ := hsucc 0x30 2 (by omega)
    obtain ⟨b12, hb12⟩ := hsucc 0x32 2 (by omega)
    have hc : ds.read_u32_be 0x04 = Except.ok (fromBeBytes b1) := by
      unfold Source.read_u32_be; rw [hb1]; rfl
    have ht : ds.read_u16_le 0x10 = Except.ok (fromLeBytes b2) := by
      unfold Source.read_u16_le; rw [hb2]; rfl
    have hma : ds.read_u16_le 0x12 = Except.ok (fromLeBytes b3) := by
      unfold Source.read_u16_le; rw [hb3]; rfl
    have hv : ds.read_u32_le 0x14 = Except.ok (fromLeBytes b4) := by
      unfold Source.read_u32_le; rw [hb4]; rfl
    have hen : ds.read_u32_le 0x18 = Except.ok (fromLeBytes b5) := by
      unfold Source.read_u32_le; rw [hb5]; rfl
    have hpo : ds.read_u32_le 0x1C = Except.ok (fromLeBytes b6) := by
      unfold Source.read_u32_le; rw [hb6]; rfl
    have hso : ds.read_u32_le 0x20 = Except.ok (fromLeBytes b7) := by
      unfold Source.read_u32_le; rw [hb7]; rfl
    have hps : ds.read_u16_le 0x2A = Except.ok (fromLeBytes b8) := by
      unfold Source.read_u16_le; rw [hb8]; rfl
    have hpn : ds.read_u16_le 0x2C = Except.ok (fromLeBytes b9) := by
      unfold Source.read_u16_le; rw [hb9]; rfl
    have hss : ds.read_u16_le 0x2E = Except.ok (fromLeBytes b10) := by
      unfold Source.read_u16_le; rw [hb10]; rfl
    have hsn : ds.read_u16_le 0x30 = Except.ok (fromLeBytes b11) := by
      unfold Source.read_u16_le; rw [hb11]; rfl
    have hsi : ds.read_u16_le 0x32 = Except.ok (fromLeBytes b12) := by
      unfold Source.read_u16_le; rw [hb12]; rfl
    by_cases q0 : b0 = [0x7F, 0x45, 0x4C, 0x46]
    case neg =>
      have hnew := Loader.new_bad_magic (magic_read ds b0 hb0)
        (magic_ne ds b0 hb0 q0)
      constructor
      · rw [hnew, hb0]
        simp [q0]
      · rw [hnew, hb0]
        simp [q0]
    subst q0
    have hm2 : ds.read_u32_be 0x00 = Except.ok Loader.ELF_MAGIC :=
      magic_read ds _ hb0
    by_cases q1 : fromBeBytes b1 = 0x01010100
    case neg =>
      have hnew := Loader.new_bad_cls hm2 hc q1
      constructor
      · rw [hnew, hb0]
        simp
      · rw [hnew, hb0, hc]
        simp [q1]
    rw [q1] at hc
    by_cases q2 : fromLeBytes b2 = 0x02
    case neg =>
      have hnew := Loader.new_bad_type hm2 hc ht q2
      constructor
      · rw [hnew, hb0]
        simp
      · rw [hnew, hb0, hc, ht]
        simp [q2]
    rw [q2] at ht
    by_cases q3 : fromLeBytes b3 = 0x28
    case neg =>
      have hnew := Loader.new_bad_machine hm2 hc ht hma q3
      constructor
      · rw [hnew, hb0]
        simp
      · rw [hnew, hb0, hc, ht, hma]
        simp [q3]
    rw [q3] at hma
    by_cases q4 : fromLeBytes b4 = 1
    case neg =>
      have hnew := Loader.new_bad_version hm2 hc ht hma hv q4
      constructor
      · rw [hnew, hb0]
        simp
      · rw [hnew, hb0, hc, ht, hma, hv]
        simp [q4]
    rw [q4] at hv
    by_cases q5 : fromLeBytes b8 = 32
    case neg =>
      have hnew := Loader.new_bad_phentsize hm2 hc ht hma hv hen hpo hso
        hps q5
      constructor
      · rw [hnew, hb0]
        simp
      · rw [hnew, hb0, hc, ht, hma, hv, hps]
        simp [q5]
    rw [q5] at hps
    by_cases q6 : fromLeBytes b10 = 40
    case neg =>
      have hnew := Loader.new_bad_shentsize hm2 hc ht hma hv hen hpo hso hps
        hpn hss q6
      constructor
      · rw [hnew, hb0]
        simp
      · rw [hnew, hb0, hc, ht, hma, hv, hps, hss]
        simp [q6]
    rw [q6] at hss
    have hnew := Loader.new_ok_of_reads hm2 hc ht hma hv hen hpo hso hps hpn
      hss hsn hsi
    constructor
    · rw [hnew, hb0]
      simp
    · rw [hnew, hb0, hc, ht, hma, hv, hps, hss]
      simp

/-- Witness for C1 at a concrete input: a source whose first four bytes are
zero fails construction with `NotAnElfFile`. -/
theorem c1_header_validation_witness :
    Loader.new (listSource [0, 0, 0, 0] (by decide)) =
      Except.error Error.NotAnElfFile :=
  c1_header_validation.1 (listSource [0, 0, 0, 0] (by decide)) [0, 0, 0, 0]
    (by decide) (by decide)

end NeotronLoader
